import Mathlib

/-! # Chart data adapter (`render_chart.js`): embedding and checked properties

The repository holds two near-identical browser scripts,
`src/assets/js/render_chart.js` (the *assets* variant, with a hover tooltip) and
`src/backtesting/static/js/render_chart.js` (the *backtesting* variant).  Each fetches a JSON
document and, in the success handler, reshapes it into calls on a charting widget.

The embedding is untyped, like the scripts: a response is a `JsVal`; property reads on `null`
or `undefined` and calls of something that is not a function raise a `JsError`; the calls made
on the chart are recorded in order in an `Outcome`.

Modelling conventions.
* Finite numbers are exact rationals; `+0` and `-0` are one value.  Rounding of IEEE doubles is
  not modelled.  The only arithmetic the success handler performs is
  `Math.floor(ms / 1000)` on an integral `ms` with `|ms| ≤ 8.64e15`, where the double result
  and the exact result have the same floor.
* Conversions of a value to a primitive (`ToPrimitive`, `ToString`, and through them
  `new Date(v)`, `parseFloat(v)`, a template literal and `v > 0`) follow the language
  standard on JSON values, exceptions included: an object with an own `toString` property has
  no callable `toString`, and `Object.prototype.valueOf` returns the object itself, so its
  conversion raises a `TypeError`; an array converts through `join`, which converts its
  elements.
* The ECMAScript built-ins on strings and numbers (`Date.parse`, `parseFloat` on a string,
  `toUpperCase`, `Number::toString`, `StringToNumber`), which do not throw, are a parameter
  `Runtime`.  Universal statements hold for every runtime.  `ecma` is an executable reference
  runtime used for closed examples.
* The charting widget and the DOM are external: their calls are recorded, never interpreted,
  and are taken not to throw.
-/

namespace RenderChart

/-! ## JavaScript values -/

/-- A JavaScript number: `NaN`, an infinity, or a finite value. -/
inductive JsNum where
  | nan
  | infinity (negative : Bool)
  | finite (q : ℚ)
  deriving DecidableEq

/-- A JavaScript value as `response.json()` can deliver it, plus `undefined`, which property
reads produce.  An object is the list of its own properties. -/
inductive JsVal where
  | undefined
  | null
  | bool (b : Bool)
  | num (n : JsNum)
  | str (s : String)
  | arr (xs : List JsVal)
  | obj (fields : List (String × JsVal))

mutual
/-- Decides equality of two values. -/
def JsVal.decEq : (a b : JsVal) → Decidable (a = b)
  | .undefined, .undefined => isTrue rfl
  | .null, .null => isTrue rfl
  | .bool a, .bool b =>
    if h : a = b then isTrue (congrArg JsVal.bool h) else isFalse fun e => h (JsVal.bool.inj e)
  | .num a, .num b =>
    if h : a = b then isTrue (congrArg JsVal.num h) else isFalse fun e => h (JsVal.num.inj e)
  | .str a, .str b =>
    if h : a = b then isTrue (congrArg JsVal.str h) else isFalse fun e => h (JsVal.str.inj e)
  | .arr xs, .arr ys =>
    match JsVal.decEqList xs ys with
    | isTrue h => isTrue (congrArg JsVal.arr h)
    | isFalse h => isFalse fun e => h (JsVal.arr.inj e)
  | .obj fs, .obj gs =>
    match JsVal.decEqFields fs gs with
    | isTrue h => isTrue (congrArg JsVal.obj h)
    | isFalse h => isFalse fun e => h (JsVal.obj.inj e)
  | .undefined, .null | .undefined, .bool _ | .undefined, .num _ | .undefined, .str _
  | .undefined, .arr _ | .undefined, .obj _ => isFalse nofun
  | .null, .undefined | .null, .bool _ | .null, .num _ | .null, .str _
  | .null, .arr _ | .null, .obj _ => isFalse nofun
  | .bool _, .undefined | .bool _, .null | .bool _, .num _ | .bool _, .str _
  | .bool _, .arr _ | .bool _, .obj _ => isFalse nofun
  | .num _, .undefined | .num _, .null | .num _, .bool _ | .num _, .str _
  | .num _, .arr _ | .num _, .obj _ => isFalse nofun
  | .str _, .undefined | .str _, .null | .str _, .bool _ | .str _, .num _
  | .str _, .arr _ | .str _, .obj _ => isFalse nofun
  | .arr _, .undefined | .arr _, .null | .arr _, .bool _ | .arr _, .num _
  | .arr _, .str _ | .arr _, .obj _ => isFalse nofun
  | .obj _, .undefined | .obj _, .null | .obj _, .bool _ | .obj _, .num _
  | .obj _, .str _ | .obj _, .arr _ => isFalse nofun
/-- Decides equality of two lists of values. -/
def JsVal.decEqList : (xs ys : List JsVal) → Decidable (xs = ys)
  | [], [] => isTrue rfl
  | [], _ :: _ => isFalse nofun
  | _ :: _, [] => isFalse nofun
  | x :: xs, y :: ys =>
    match JsVal.decEq x y, JsVal.decEqList xs ys with
    | isTrue h1, isTrue h2 => isTrue (congrArg₂ List.cons h1 h2)
    | isFalse h1, _ => isFalse fun e => h1 (List.cons.inj e).1
    | _, isFalse h2 => isFalse fun e => h2 (List.cons.inj e).2
/-- Decides equality of two property lists. -/
def JsVal.decEqFields : (fs gs : List (String × JsVal)) → Decidable (fs = gs)
  | [], [] => isTrue rfl
  | [], _ :: _ => isFalse nofun
  | _ :: _, [] => isFalse nofun
  | (k, x) :: fs, (l, y) :: gs =>
    if hk : k = l then
      match JsVal.decEq x y, JsVal.decEqFields fs gs with
      | isTrue h1, isTrue h2 => isTrue (by rw [hk, h1, h2])
      | isFalse h1, _ => isFalse fun e => h1 (Prod.mk.inj (List.cons.inj e).1).2
      | _, isFalse h2 => isFalse fun e => h2 (List.cons.inj e).2
    else isFalse fun e => hk (Prod.mk.inj (List.cons.inj e).1).1
end

instance : DecidableEq JsVal := JsVal.decEq

/-- The exceptions the scripts can raise on JSON input: all are `TypeError`s. -/
inductive JsError where
  /-- A property was read on `null` or `undefined`. -/
  | nullish
  /-- Something that is not a function was called. -/
  | notCallable
  /-- An object could not be converted to a primitive value. -/
  | notPrimitive
  deriving DecidableEq

deriving instance DecidableEq for Except

/-- ECMAScript `ToBoolean` on numbers: `0` and `NaN` are falsy. -/
def JsNum.truthy : JsNum → Bool
  | .nan => false
  | .infinity _ => true
  | .finite q => decide (q ≠ 0)

/-- ECMAScript `ToBoolean`: `undefined`, `null`, `false`, `0`, `NaN` and `""` are falsy. -/
def JsVal.truthy : JsVal → Bool
  | .undefined => false
  | .null => false
  | .bool b => b
  | .num n => n.truthy
  | .str s => decide (s ≠ "")
  | .arr _ => true
  | .obj _ => true

/-- The comparison `a === b` on two numbers: `NaN` equals nothing. -/
def JsNum.strictEq : JsNum → JsNum → Bool
  | .nan, _ => false
  | _, .nan => false
  | a, b => decide (a = b)

/-- The comparison `n === v` where the left side is a number: a value of another type is never
strictly equal to it. -/
def strictEqNum (n : JsNum) : JsVal → Bool
  | .num m => n.strictEq m
  | _ => false

/-- The comparison `n > 0` on a number. -/
def JsNum.gtZero : JsNum → Bool
  | .nan => false
  | .infinity negative => !negative
  | .finite q => decide (0 < q)

/-- Length of a string in UTF-16 code units, the `length` of a JavaScript string. -/
def utf16Length (s : String) : Nat :=
  (s.toList.map fun c => if c.toNat < 65536 then 1 else 2).sum

/-- The ECMAScript built-ins on strings and numbers that the scripts reach.  None of them
throws. -/
structure Runtime where
  /-- The function `Date.parse` on a string: epoch milliseconds, `none` for `NaN`.  Time values
  are integral. -/
  dateParse : String → Option Int
  /-- The global `parseFloat` on a string. -/
  parseFloat : String → JsNum
  /-- The method `String.prototype.toUpperCase`. -/
  toUpperCase : String → String
  /-- The conversion `Number::toString`. -/
  numberToString : JsNum → String
  /-- The conversion `StringToNumber`. -/
  stringToNumber : String → JsNum

/-- A property read `v.key`, for the property names the scripts read (`portfolioValues`,
`priceData`, `tradeData`, `orderData`, `length`, `time`, `Date`, `open`, `Open`, `high`,
`High`, `low`, `Low`, `close`, `Close`, `portfolio_value`, `type`, `size`, `price`): none of
them is inherited from a prototype except `length` on arrays and strings. -/
def getProp (v : JsVal) (key : String) : Except JsError JsVal :=
  match v with
  | .undefined => .error .nullish
  | .null => .error .nullish
  | .obj fields => .ok ((fields.lookup key).getD .undefined)
  | .arr xs => .ok (if key = "length" then .num (.finite xs.length) else .undefined)
  | .str s => .ok (if key = "length" then .num (.finite (utf16Length s)) else .undefined)
  | .bool _ => .ok .undefined
  | .num _ => .ok .undefined

/-- The expression `d.lower || d.upper`: the second property is read only when the first is
falsy. -/
def propOr (d : JsVal) (lower upper : String) : Except JsError JsVal := do
  let a ← getProp d lower
  if a.truthy then pure a else getProp d upper

/-- The comparison `v === "buy"`. -/
def isBuy : JsVal → Bool
  | .str s => decide (s = "buy")
  | _ => false

/-- The call `v.toUpperCase()`: only strings have the method. -/
def callToUpperCase (R : Runtime) : JsVal → Except JsError String
  | .str s => .ok (R.toUpperCase s)
  | .undefined => .error .nullish
  | .null => .error .nullish
  | _ => .error .notCallable

mutual
/-- The conversion `ToString`, as a template literal, `parseFloat` and `join` apply it.  A
plain object converts through `Object.prototype.toString` unless it has an own `toString`
property: a JSON value is never callable, and `valueOf` returns the object, so the conversion
raises a `TypeError`.  An array converts through `join`. -/
def toStr (R : Runtime) : JsVal → Except JsError String
  | .undefined => .ok "undefined"
  | .null => .ok "null"
  | .bool true => .ok "true"
  | .bool false => .ok "false"
  | .num n => .ok (R.numberToString n)
  | .str s => .ok s
  | .arr xs =>
    match elemStrings R xs with
    | .ok parts => .ok (String.intercalate "," parts)
    | .error e => .error e
  | .obj fields =>
    match fields.lookup "toString" with
    | some _ => .error .notPrimitive
    | none => .ok "[object Object]"
/-- The strings `Array.prototype.join` puts between the separators: the empty string for
`undefined` and `null`, the conversion `ToString` for another element, left to right. -/
def elemStrings (R : Runtime) : List JsVal → Except JsError (List String)
  | [] => .ok []
  | .undefined :: xs =>
    match elemStrings R xs with
    | .ok parts => .ok ("" :: parts)
    | .error e => .error e
  | .null :: xs =>
    match elemStrings R xs with
    | .ok parts => .ok ("" :: parts)
    | .error e => .error e
  | x :: xs =>
    match toStr R x with
    | .error e => .error e
    | .ok part =>
      match elemStrings R xs with
      | .ok parts => .ok (part :: parts)
      | .error e => .error e
end

/-- The conversion `ToPrimitive`: a primitive is returned as it is, an object or array becomes
the string its `toString` gives, under any hint. -/
def toPrimitive (R : Runtime) (v : JsVal) : Except JsError JsVal :=
  match v with
  | .arr _ => (toStr R v).map JsVal.str
  | .obj _ => (toStr R v).map JsVal.str
  | p => .ok p

/-- The conversion `ToNumber` on a primitive; it is applied to results of `toPrimitive` only,
so the last case is not reached. -/
def primToNumber (R : Runtime) : JsVal → JsNum
  | .undefined => .nan
  | .null => .finite 0
  | .bool b => .finite (if b then 1 else 0)
  | .num n => n
  | .str s => R.stringToNumber s
  | _ => .nan

/-- The comparison `v > 0`. -/
def gtZero (R : Runtime) (v : JsVal) : Except JsError Bool := do
  let p ← toPrimitive R v
  pure (primToNumber R p).gtZero

/-- The operation `TimeClip`: a finite number within the range of time values, truncated
toward zero. -/
def timeClip : JsNum → Option Int
  | .finite q =>
    if |q| ≤ 8640000000000000 then some (if 0 ≤ q then Int.floor q else Int.ceil q) else none
  | _ => none

/-- The call `new Date(v).getTime()`: epoch milliseconds, `none` for `NaN`.  The argument is
converted to a primitive; a string is parsed, another primitive is converted to a number. -/
def dateGetTime (R : Runtime) (v : JsVal) : Except JsError (Option Int) := do
  let p ← toPrimitive R v
  match p with
  | .str s => pure (R.dateParse s)
  | q => pure (timeClip (primToNumber R q))

/-- The expression `Math.floor(new Date(v).getTime() / 1000)`. -/
def epochSeconds (R : Runtime) (v : JsVal) : Except JsError JsNum := do
  match ← dateGetTime R v with
  | none => pure .nan
  | some ms => pure (.finite (Int.floor ((ms : ℚ) / 1000)))

/-- The call `parseFloat(v)`: the argument is converted to a string first. -/
def jsParseFloat (R : Runtime) (v : JsVal) : Except JsError JsNum := do
  let s ← toStr R v
  pure (R.parseFloat s)

/-- Runs a callback over the elements in order; the first exception aborts. -/
def mapElems {β : Type} (f : JsVal → Except JsError β) : List JsVal → Except JsError (List β)
  | [] => .ok []
  | x :: xs =>
    match f x with
    | .error e => .error e
    | .ok y =>
      match mapElems f xs with
      | .error e => .error e
      | .ok ys => .ok (y :: ys)

/-- The call `v.map(f)`: only arrays have the method. -/
def callMap {β : Type} (v : JsVal) (f : JsVal → Except JsError β) : Except JsError (List β) :=
  match v with
  | .arr xs => mapElems f xs
  | .undefined => .error .nullish
  | .null => .error .nullish
  | _ => .error .notCallable

/-- The guard `data.key && data.key.length > 0`: the value of `data.key` when the guard
passes. -/
def nonEmpty (R : Runtime) (data : JsVal) (key : String) : Except JsError (Option JsVal) := do
  let v ← getProp data key
  if v.truthy then
    let len ← getProp v "length"
    if ← gtZero R len then pure (some v) else pure none
  else pure none

/-! ## Shapes handed to the chart -/

/-- One point of the portfolio line series. -/
structure PortfolioPoint where
  time : JsNum
  value : JsVal
  deriving DecidableEq

/-- One candlestick.  The field `open_` is the property `open`. -/
structure Bar where
  time : JsNum
  open_ : JsNum
  high : JsNum
  low : JsNum
  close : JsNum
  deriving DecidableEq

/-- One series marker.  `tooltip` is `none` when the object has no such property. -/
structure Marker where
  time : JsNum
  position : String
  color : String
  shape : String
  text : String
  tooltip : Option String
  size : Nat
  deriving DecidableEq

/-- The two scripts. -/
inductive Variant where
  /-- The script `src/assets/js/render_chart.js`. -/
  | assets
  /-- The script `src/backtesting/static/js/render_chart.js`. -/
  | backtesting
  deriving DecidableEq

/-- A call made on the charting widget. -/
inductive ChartCall where
  /-- The call `portfolioSeries.setData(points)`. -/
  | portfolioSetData (points : List PortfolioPoint)
  /-- The call `candleSeries.setData(bars)`. -/
  | candleSetData (bars : List Bar)
  /-- The call `candleSeries.setMarkers(markers)`. -/
  | setMarkers (markers : List Marker)
  /-- The call `chart.timeScale().fitContent()`. -/
  | fitContent
  deriving DecidableEq

/-- What one run of the success handler did: the chart calls in order, and the exception that
ended it, if any. -/
structure Outcome where
  calls : List ChartCall
  error : Option JsError
  deriving DecidableEq

/-! ## The fetch success handler -/

/-- The `portfolioValues.map` callback (identical in both scripts). -/
def portfolioPoint (R : Runtime) (d : JsVal) : Except JsError PortfolioPoint := do
  let time ← getProp d "time"
  let seconds ← epochSeconds R time
  let value ← getProp d "portfolio_value"
  pure { time := seconds, value := value }

/-- The `priceData.map` callback (identical in both scripts). -/
def priceBar (R : Runtime) (d : JsVal) : Except JsError Bar := do
  let time ← propOr d "time" "Date"
  let seconds ← epochSeconds R time
  let o ← propOr d "open" "Open"
  let openPrice ← jsParseFloat R o
  let h ← propOr d "high" "High"
  let highPrice ← jsParseFloat R h
  let l ← propOr d "low" "Low"
  let lowPrice ← jsParseFloat R l
  let c ← propOr d "close" "Close"
  let closePrice ← jsParseFloat R c
  pure { time := seconds
         open_ := openPrice
         high := highPrice
         low := lowPrice
         close := closePrice }

namespace Assets

/-- The `tradeData.map` callback of the assets script. -/
def tradeMarker (R : Runtime) (trade : JsVal) : Except JsError Marker := do
  let time ← getProp trade "time"
  let seconds ← epochSeconds R time
  let type ← getProp trade "type"
  let side ← callToUpperCase R type
  let size ← getProp trade "size"
  let sizeText ← toStr R size
  let price ← getProp trade "price"
  let priceText ← toStr R price
  pure { time := seconds
         position := if isBuy type then "belowBar" else "aboveBar"
         color := if isBuy type then "#4caf50" else "#ef5350"
         shape := if isBuy type then "arrowUp" else "arrowDown"
         text := ""
         tooltip := some (side ++ " " ++ sizeText ++ " @ " ++ priceText)
         size := 2 }

/-- The `orderData.map` callback of the assets script. -/
def orderMarker (R : Runtime) (order : JsVal) : Except JsError Marker := do
  let time ← getProp order "time"
  let seconds ← epochSeconds R time
  let type ← getProp order "type"
  let side ← callToUpperCase R type
  let size ← getProp order "size"
  let sizeText ← toStr R size
  let price ← getProp order "price"
  let priceText ← toStr R price
  pure { time := seconds
         position := if isBuy type then "belowBar" else "aboveBar"
         color := if isBuy type then "#4caf50" else "#ef5350"
         shape := if isBuy type then "arrowUp" else "arrowDown"
         text := ""
         tooltip := some (side ++ " " ++ sizeText ++ " @ " ++ priceText)
         size := 2 }

end Assets

namespace Backtesting

/-- The `tradeData.map` callback of the backtesting script. -/
def tradeMarker (R : Runtime) (trade : JsVal) : Except JsError Marker := do
  let time ← getProp trade "time"
  let seconds ← epochSeconds R time
  let type ← getProp trade "type"
  let side ← callToUpperCase R type
  let size ← getProp trade "size"
  let sizeText ← toStr R size
  let price ← getProp trade "price"
  let priceText ← toStr R price
  pure { time := seconds
         position := if isBuy type then "belowBar" else "aboveBar"
         color := if isBuy type then "#4caf50" else "#ef5350"
         shape := if isBuy type then "arrowUp" else "arrowDown"
         text := side ++ " " ++ sizeText ++ " @ " ++ priceText
         tooltip := none
         size := 2 }

/-- The `orderData.map` callback of the backtesting script. -/
def orderMarker (R : Runtime) (order : JsVal) : Except JsError Marker := do
  let time ← getProp order "time"
  let seconds ← epochSeconds R time
  let type ← getProp order "type"
  let side ← callToUpperCase R type
  let size ← getProp order "size"
  let sizeText ← toStr R size
  let price ← getProp order "price"
  let priceText ← toStr R price
  pure { time := seconds
         position := if isBuy type then "belowBar" else "aboveBar"
         color := if isBuy type then "#4caf50" else "#ef5350"
         shape := if isBuy type then "arrowUp" else "arrowDown"
         text := side ++ " " ++ sizeText ++ " @ " ++ priceText
         tooltip := none
         size := 2 }

end Backtesting

/-- The `tradeData.map` callback of a script. -/
def tradeMarker : Variant → Runtime → JsVal → Except JsError Marker
  | .assets => Assets.tradeMarker
  | .backtesting => Backtesting.tradeMarker

/-- The `orderData.map` callback of a script. -/
def orderMarker : Variant → Runtime → JsVal → Except JsError Marker
  | .assets => Assets.orderMarker
  | .backtesting => Backtesting.orderMarker

/-- The portfolio block: `some points` when `portfolioSeries.setData(points)` is reached,
`none` when the guard skips the block. -/
def formattedPortfolioValues (R : Runtime) (data : JsVal) :
    Except JsError (Option (List PortfolioPoint)) := do
  match ← nonEmpty R data "portfolioValues" with
  | some v => pure (some (← callMap v (portfolioPoint R)))
  | none => pure none

/-- The price block: `some bars` when `candleSeries.setData(bars)` is reached, `none` when
the guard skips the block. -/
def formattedPriceData (R : Runtime) (data : JsVal) :
    Except JsError (Option (List Bar)) := do
  match ← nonEmpty R data "priceData" with
  | some v => pure (some (← callMap v (priceBar R)))
  | none => pure none

/-- The value of `allMarkers` after the trade block and the order block. -/
def allMarkers (V : Variant) (R : Runtime) (data : JsVal) : Except JsError (List Marker) := do
  let afterTrades ←
    match ← nonEmpty R data "tradeData" with
    | some v => callMap v (tradeMarker V R)
    | none => pure []
  match ← nonEmpty R data "orderData" with
  | some v => pure (afterTrades ++ (← callMap v (orderMarker V R)))
  | none => pure afterTrades

/-- The `.then(data => ...)` success handler of a script: the chart calls it makes, in order,
up to the exception that ends it, if one is raised. -/
def onData (V : Variant) (R : Runtime) (data : JsVal) : Outcome :=
  match formattedPortfolioValues R data with
  | .error e => { calls := [], error := some e }
  | .ok portfolio =>
    let c1 : List ChartCall :=
      match portfolio with
      | some points => [.portfolioSetData points]
      | none => []
    match formattedPriceData R data with
    | .error e => { calls := c1, error := some e }
    | .ok price =>
      let c2 : List ChartCall :=
        match price with
        | some bars => c1 ++ [.candleSetData bars]
        | none => c1
      match allMarkers V R data with
      | .error e => { calls := c2, error := some e }
      | .ok markers =>
        let c3 : List ChartCall :=
          if markers.length > 0 then c2 ++ [.setMarkers markers] else c2
        { calls := c3 ++ [.fitContent], error := none }

/-! ## The crosshair handler (assets script only) -/

/-- The pointer position `param.point`. -/
structure Point where
  x : ℚ
  y : ℚ
  deriving DecidableEq

/-- The argument of the crosshair callback; `point` is `none` for `undefined`. -/
structure CrosshairParam where
  time : JsVal
  point : Option Point
  deriving DecidableEq

/-- What the callback reads from the chart and the DOM while it positions the tooltip, in
pixels.  The lengths are exact rationals: the rounding of doubles and a `NaN` or `null`
coordinate are not represented, so `left` and `top` are exact only where the double
computation is, as it is on the dyadic numbers of the closed statement about them; `display`
and `innerHTML` do not depend on the lengths. -/
structure Layout where
  /-- The value `candleSeries.priceToCoordinate(param.seriesPrices.get(candleSeries))`. -/
  coordinate : ℚ
  /-- The width of `toolTipElement.getBoundingClientRect()`. -/
  tipWidth : ℚ
  /-- The height of `toolTipElement.getBoundingClientRect()`. -/
  tipHeight : ℚ
  /-- The value `chartContainer.clientWidth`. -/
  clientWidth : ℚ
  /-- The value `chartContainer.clientHeight`. -/
  clientHeight : ℚ
  deriving DecidableEq

/-- The tooltip element: its `style.display`, its `innerHTML`, and `style.left` and
`style.top` in pixels (`none` while never assigned). -/
structure Tooltip where
  display : String
  innerHTML : String
  left : Option ℚ
  top : Option ℚ
  deriving DecidableEq

/-- The tooltip element as the script creates it. -/
def Tooltip.initial : Tooltip :=
  { display := "none", innerHTML := "", left := none, top := none }

/-- The `chart.subscribeCrosshairMove` callback.  `markers` is what `candleSeries.markers()`
returns (`none` for a falsy result). -/
def onCrosshairMove (markers : Option (List Marker)) (L : Layout) (tip : Tooltip)
    (param : CrosshairParam) : Tooltip :=
  if !param.time.truthy then { tip with display := "none" }
  else
    match param.point with
    | none => { tip with display := "none" }
    | some point =>
      match markers with
      | none => { tip with display := "none" }
      | some ms =>
        match ms.find? (fun m => strictEqNum m.time param.time) with
        | some marker =>
          let tooltipX := point.x - L.tipWidth / 2
          let tooltipY :=
            if marker.position = "aboveBar" then L.coordinate - L.tipHeight - 10
            else L.coordinate + 10
          let maxX := L.clientWidth - L.tipWidth
          let clampedX := max 0 (min tooltipX maxX)
          let maxY := L.clientHeight - L.tipHeight
          let clampedY := max 0 (min tooltipY maxY)
          { display := "block"
            innerHTML := marker.tooltip.getD "undefined"
            left := some clampedX
            top := some clampedY }
        | none => { tip with display := "none" }

/-! ## A reference runtime

`ecma` computes the built-ins of `Runtime` on the fragment of ECMAScript that closed examples
use.  It agrees with the language standard on: date-time strings of the forms `YYYY-MM-DD`,
`YYYY-MM-DDTHH:mm:ssZ` and `YYYY-MM-DDTHH:mm:ss.sssZ`; decimal numerals with ASCII white
space; ASCII letters for `toUpperCase`; and numbers that are decimal fractions of magnitude
within `1e-6 .. 1e21` with at most 20 fractional digits.  Other inputs (other date formats,
hexadecimal numerals, non-ASCII letters, exponent notation in number output) lie outside the
fragment. -/

/-- Value of a decimal digit character. -/
def digitVal (c : Char) : Option Nat :=
  if c.isDigit then some (c.toNat - 48) else none

/-- Splits off the leading decimal digits. -/
def takeDigits : List Char → List Nat × List Char
  | [] => ([], [])
  | c :: cs =>
    match digitVal c with
    | some d => ((d :: (takeDigits cs).1), (takeDigits cs).2)
    | none => ([], c :: cs)

/-- The number a digit sequence denotes. -/
def natOfDigits (ds : List Nat) : Nat :=
  ds.foldl (fun a d => 10 * a + d) 0

/-- The number a digit string denotes, when every character is a digit. -/
def allDigits (cs : List Char) : Option Nat :=
  match takeDigits cs with
  | (ds, []) => some (natOfDigits ds)
  | _ => none

/-- An exponent part `e`, `e+` or `e-` followed by digits, if the input starts with one. -/
def scanExponent (cs : List Char) : Option (Int × List Char) :=
  match cs with
  | c :: rest =>
    if c = 'e' ∨ c = 'E' then
      match rest with
      | '-' :: r =>
        match takeDigits r with
        | ([], _) => none
        | (ds, r2) => some (-(natOfDigits ds : Int), r2)
      | '+' :: r =>
        match takeDigits r with
        | ([], _) => none
        | (ds, r2) => some ((natOfDigits ds : Int), r2)
      | r =>
        match takeDigits r with
        | ([], _) => none
        | (ds, r2) => some ((natOfDigits ds : Int), r2)
    else none
  | [] => none

/-- The longest prefix that is an unsigned decimal literal (`12`, `12.`, `12.5`, `.5`, each
with an optional exponent): its value and the rest of the input. -/
def scanDecimal (cs : List Char) : Option (ℚ × List Char) :=
  let ip := (takeDigits cs).1
  let r1 := (takeDigits cs).2
  let fp : List Nat := match r1 with
    | '.' :: r => (takeDigits r).1
    | _ => []
  let r2 : List Char := match r1 with
    | '.' :: r => if ip = [] ∧ (takeDigits r).1 = [] then r1 else (takeDigits r).2
    | _ => r1
  if ip = [] ∧ fp = [] then none
  else
    let m := natOfDigits (ip ++ fp)
    match scanExponent r2 with
    | some (e, r3) =>
      if 0 ≤ e then some (((m * 10 ^ e.toNat : Nat) : ℚ) / ((10 ^ fp.length : Nat) : ℚ), r3)
      else some ((m : ℚ) / ((10 ^ (fp.length + (-e).toNat) : Nat) : ℚ), r3)
    | none => some ((m : ℚ) / ((10 ^ fp.length : Nat) : ℚ), r2)

/-- The longest prefix that is a signed decimal literal or a signed `Infinity`. -/
def scanNumber (cs : List Char) : Option (JsNum × List Char) :=
  let negative : Bool := match cs with
    | '-' :: _ => true
    | _ => false
  let body : List Char := match cs with
    | '-' :: r => r
    | '+' :: r => r
    | _ => cs
  if "Infinity".toList.isPrefixOf body then some (.infinity negative, body.drop 8)
  else
    match scanDecimal body with
    | some (q, rest) => some (.finite (if negative then -q else q), rest)
    | none => none

/-- The function `parseFloat` on a string: leading white space is skipped and the longest
numeric prefix is read. -/
def parseFloatString (s : String) : JsNum :=
  match scanNumber (s.toList.dropWhile Char.isWhitespace) with
  | some (n, _) => n
  | none => .nan

/-- The conversion `StringToNumber` for decimal numerals: the whole trimmed string has to be
a numeral, and the empty string is `0`. -/
def stringToNumber (s : String) : JsNum :=
  let cs := ((s.toList.dropWhile Char.isWhitespace).reverse.dropWhile Char.isWhitespace).reverse
  if cs = [] then .finite 0
  else
    match scanNumber cs with
    | some (n, []) => n
    | _ => .nan

/-- Fractional digits of `r` in `[0, 1)`, at most `fuel` of them. -/
def fracDigits : Nat → ℚ → List Char
  | 0, _ => []
  | fuel + 1, r =>
    if r = 0 then []
    else Nat.digitChar (Int.floor (r * 10)).toNat ::
      fracDigits fuel (r * 10 - (Int.floor (r * 10) : ℚ))

/-- The conversion `Number::toString` in positional decimal notation. -/
def ecmaNumberToString : JsNum → String
  | .nan => "NaN"
  | .infinity true => "-Infinity"
  | .infinity false => "Infinity"
  | .finite q =>
    let a : ℚ := |q|
    let whole : Nat := (Int.floor a).toNat
    let frac : ℚ := a - (whole : ℚ)
    (if q < 0 then "-" else "") ++ Nat.repr whole ++
      (if frac = 0 then "" else String.mk ('.' :: fracDigits 20 frac))

/-- Leap years of the proleptic Gregorian calendar. -/
def isLeapYear (y : Nat) : Bool :=
  (y % 4 == 0 && y % 100 != 0) || y % 400 == 0

/-- Number of days of month `m` (1 to 12) in year `y`. -/
def daysInMonth (y m : Nat) : Nat :=
  if m = 2 then (if isLeapYear y then 29 else 28)
  else if m = 4 ∨ m = 6 ∨ m = 9 ∨ m = 11 then 30
  else 31

/-- Days from 1970-01-01 to the given civil date. -/
def daysFromCivil (y m d : Nat) : Int :=
  let y1 : Int := if m ≤ 2 then (y : Int) - 1 else y
  let era : Int := y1 / 400
  let yoe : Int := y1 - era * 400
  let mp : Int := if m > 2 then (m : Int) - 3 else (m : Int) + 9
  let doy : Int := (153 * mp + 2) / 5 + (d : Int) - 1
  let doe : Int := yoe * 365 + yoe / 4 - yoe / 100 + doy
  era * 146097 + doe - 719468

/-- Milliseconds into the day for `HH:mm:ss` followed by `Z` or `.sssZ`. -/
def parseIsoTime (cs : List Char) : Option Int :=
  match cs with
  | h1 :: h2 :: ':' :: n1 :: n2 :: ':' :: s1 :: s2 :: rest =>
    match allDigits [h1, h2], allDigits [n1, n2], allDigits [s1, s2] with
    | some h, some n, some s =>
      if h ≤ 23 ∧ n ≤ 59 ∧ s ≤ 59 then
        match rest with
        | ['Z'] => some (((h * 3600 + n * 60 + s) * 1000 : Nat) : Int)
        | ['.', f1, f2, f3, 'Z'] =>
          match allDigits [f1, f2, f3] with
          | some f => some (((h * 3600 + n * 60 + s) * 1000 + f : Nat) : Int)
          | none => none
        | _ => none
      else none
    | _, _, _ => none
  | _ => none

/-- The function `Date.parse` on the date-time string format, UTC forms. -/
def parseIsoDate (cs : List Char) : Option Int :=
  match cs with
  | y1 :: y2 :: y3 :: y4 :: '-' :: m1 :: m2 :: '-' :: d1 :: d2 :: rest =>
    match allDigits [y1, y2, y3, y4], allDigits [m1, m2], allDigits [d1, d2] with
    | some y, some m, some d =>
      if 1 ≤ m ∧ m ≤ 12 ∧ 1 ≤ d ∧ d ≤ daysInMonth y m then
        match rest with
        | [] => some (daysFromCivil y m d * 86400000)
        | 'T' :: time =>
          match parseIsoTime time with
          | some ms => some (daysFromCivil y m d * 86400000 + ms)
          | none => none
        | _ => none
      else none
    | _, _, _ => none
  | _ => none

/-- The method `toUpperCase` on ASCII letters. -/
def ecmaToUpperCase (s : String) : String :=
  String.mk (s.toList.map Char.toUpper)

/-- The reference runtime. -/
def ecma : Runtime where
  dateParse := fun s => parseIsoDate s.toList
  parseFloat := parseFloatString
  toUpperCase := ecmaToUpperCase
  numberToString := ecmaNumberToString
  stringToNumber := stringToNumber

/-! ## Vocabulary of the statements -/

mutual
/-- The value converts to a primitive without an exception: every primitive does, an object
does unless it has an own `toString` property, an array does when its elements do. -/
def JsVal.convertible : JsVal → Bool
  | .obj fields => (fields.lookup "toString").isNone
  | .arr xs => JsVal.allConvertible xs
  | _ => true
/-- Every element of the list converts to a primitive without an exception. -/
def JsVal.allConvertible : List JsVal → Bool
  | [] => true
  | x :: xs => x.convertible && JsVal.allConvertible xs
end

/-- A trade or order record on which the marker callbacks return: its `type` is a string and
its `time`, `size` and `price` convert to a primitive. -/
def markerReady (rec : JsVal) : Bool :=
  match getProp rec "time", getProp rec "type", getProp rec "size", getProp rec "price" with
  | .ok t, .ok (.str _), .ok s, .ok p => t.convertible && s.convertible && p.convertible
  | _, _, _, _ => false

/-- A price record on which the bar callback returns: the record is not `null` and the five
values the callback converts (`time || Date`, `open || Open`, `high || High`, `low || Low`,
`close || Close`) convert to a primitive. -/
def barReady (d : JsVal) : Bool :=
  match propOr d "time" "Date", propOr d "open" "Open", propOr d "high" "High",
    propOr d "low" "Low", propOr d "close" "Close" with
  | .ok t, .ok o, .ok h, .ok l, .ok c =>
    t.convertible && o.convertible && h.convertible && l.convertible && c.convertible
  | _, _, _, _, _ => false

/-- A portfolio record on which the point callback returns: the record is not `null` and its
`time` converts to a primitive. -/
def pointReady (d : JsVal) : Bool :=
  match getProp d "time" with
  | .ok t => t.convertible
  | .error _ => false

/-- The label of a marker: the backtesting script stores it in `text`, the assets script in
`tooltip`. -/
def Marker.label : Variant → Marker → Option String
  | .assets, m => m.tooltip
  | .backtesting, m => some m.text

/-- An object with an own `toString` property, which a JSON value cannot make callable: the
JSON text is `{"toString": null}`. -/
def unprintable : JsVal :=
  .obj [("toString", .null)]

/-- A record with the canonical fields of a trade or an order. -/
def eventRecord (time type size price : JsVal) : JsVal :=
  .obj [("time", time), ("type", type), ("size", size), ("price", price)]

/-- A buy of size 1 at price 100 on 2024-01-01. -/
def sampleBuy : JsVal :=
  eventRecord (.str "2024-01-01T00:00:00Z") (.str "buy") (.num (.finite 1)) (.num (.finite 100))

/-- A sell of size 2 at price 101 one minute and a half later. -/
def sampleSell : JsVal :=
  eventRecord (.str "2024-01-01T00:01:30Z") (.str "sell") (.num (.finite 2)) (.num (.finite 101))

/-- A record whose side is spelled in upper case. -/
def sampleUpperBuy : JsVal :=
  eventRecord (.str "2024-01-01T00:00:00Z") (.str "BUY") (.num (.finite 1)) (.num (.finite 100))

/-- A trade record without a `type`. -/
def untypedTrade : JsVal :=
  .obj [("time", .str "2024-01-01T00:00:00Z"), ("size", .num (.finite 1)),
    ("price", .num (.finite 100))]

/-- The four record streams of a response. -/
inductive Stream where
  | price
  | portfolio
  | trade
  | order
  deriving DecidableEq

/-- The value a stream's callback hands to `new Date`. -/
def Stream.timestamp : Stream → JsVal → Except JsError JsVal
  | .price, d => propOr d "time" "Date"
  | _, d => getProp d "time"

/-- The `time` of what a stream's callback emits for a record. -/
def Stream.emittedTime : Stream → Variant → Runtime → JsVal → Except JsError JsNum
  | .price, _, R, d => (priceBar R d).map (·.time)
  | .portfolio, _, R, d => (portfolioPoint R d).map (·.time)
  | .trade, V, R, d => (tradeMarker V R d).map (·.time)
  | .order, V, R, d => (orderMarker V R d).map (·.time)

/-- A record on which the stream's callback returns. -/
def Stream.ready : Stream → JsVal → Bool
  | .price, d => barReady d
  | .portfolio, d => pointReady d
  | .trade, d => markerReady d
  | .order, d => markerReady d

/-- The value of the top-level property `key` is the array `records`, or the property is
absent and there are no records. -/
def HasRecords (data : JsVal) (key : String) (records : List JsVal) : Prop :=
  getProp data key = .ok (.arr records) ∨ (getProp data key = .ok .undefined ∧ records = [])

instance (data : JsVal) (key : String) (records : List JsVal) :
    Decidable (HasRecords data key records) :=
  inferInstanceAs (Decidable (_ ∨ _))

/-- A response with two trades and one order. -/
def sampleResponse : JsVal :=
  .obj [("tradeData", .arr [sampleBuy, sampleSell]), ("orderData", .arr [sampleUpperBuy])]

/-- The five fields of a normalized bar. -/
inductive BarField where
  | time
  | open_
  | high
  | low
  | close
  deriving DecidableEq

/-- The lower-case property name a bar field is read from first. -/
def BarField.lower : BarField → String
  | .time => "time"
  | .open_ => "open"
  | .high => "high"
  | .low => "low"
  | .close => "close"

/-- The capitalized property name a bar field falls back to. -/
def BarField.upper : BarField → String
  | .time => "Date"
  | .open_ => "Open"
  | .high => "High"
  | .low => "Low"
  | .close => "Close"

/-- The field of a normalized bar. -/
def BarField.read : BarField → Bar → JsNum
  | .time, b => b.time
  | .open_, b => b.open_
  | .high, b => b.high
  | .low, b => b.low
  | .close, b => b.close

/-- The conversion the callback applies to the chosen property value. -/
def BarField.convert (R : Runtime) : BarField → JsVal → Except JsError JsNum
  | .time => epochSeconds R
  | _ => jsParseFloat R

/-- A price record in which `open` is present with value `0` next to a capitalized `Open`. -/
def zeroOpenRecord : JsVal :=
  .obj [("time", .str "2024-01-01T00:00:00Z"), ("open", .num (.finite 0)),
    ("Open", .str "100"), ("high", .str "105"), ("low", .str "99"), ("close", .str "102")]

/-- A price record whose `open` cannot be converted to a primitive. -/
def unprintableOpenRecord : JsVal :=
  .obj [("time", .str "2024-01-01T00:00:00Z"), ("open", unprintable),
    ("high", .num (.finite 1)), ("low", .num (.finite 1)), ("close", .num (.finite 1))]

/-- A response whose only content is a price array holding `null`. -/
def nullBarResponse : JsVal :=
  .obj [("priceData", .arr [.null])]

/-- A response whose only content is a price array holding `unprintableOpenRecord`. -/
def unprintableBarResponse : JsVal :=
  .obj [("priceData", .arr [unprintableOpenRecord])]

/-- A response whose only content is a portfolio array with one record whose `time` cannot be
converted to a primitive. -/
def unprintablePointResponse : JsVal :=
  .obj [("portfolioValues", .arr [.obj [("time", unprintable),
    ("portfolio_value", .num (.finite 1000))]])]

/-- A response with one bar, one portfolio point and empty event arrays. -/
def quietResponse : JsVal :=
  .obj [("priceData", .arr [zeroOpenRecord]),
    ("portfolioValues", .arr [.obj [("time", .str "2024-01-01T00:00:00Z"),
      ("portfolio_value", .num (.finite 1000))]]),
    ("tradeData", .arr [])]

/-- The input of the end-to-end example of the specification. -/
def endToEndInput : JsVal :=
  .obj [("priceData", .arr [.obj [("Date", .str "2024-01-01T00:00:00Z"), ("Open", .str "100"),
      ("High", .str "105"), ("Low", .str "99"), ("Close", .str "102")]]),
    ("tradeData", .arr [.obj [("time", .str "2024-01-01T00:00:00Z"), ("type", .str "buy"),
      ("size", .num (.finite 1)), ("price", .num (.finite 100))]])]

/-- The bar of the end-to-end example. -/
def endToEndBar : Bar :=
  { time := .finite 1704067200, open_ := .finite 100, high := .finite 105, low := .finite 99,
    close := .finite 102 }

/-- The marker of the end-to-end example, as the given script builds it. -/
def endToEndMarker : Variant → Marker
  | .assets =>
    { time := .finite 1704067200, position := "belowBar", color := "#4caf50",
      shape := "arrowUp", text := "", tooltip := some "BUY 1 @ 100", size := 2 }
  | .backtesting =>
    { time := .finite 1704067200, position := "belowBar", color := "#4caf50",
      shape := "arrowUp", text := "BUY 1 @ 100", tooltip := none, size := 2 }

/-- A marker at epoch second `time` as the assets script builds it for a buy. -/
def buyMarkerAt (time : ℚ) (label : String) : Marker :=
  { time := .finite time, position := "belowBar", color := "#4caf50", shape := "arrowUp",
    text := "", tooltip := some label, size := 2 }

/-- A layout in which the tooltip box fits the container. -/
def roomyLayout : Layout :=
  { coordinate := 120, tipWidth := 80, tipHeight := 30, clientWidth := 600, clientHeight := 450 }

/-- A layout in which the tooltip box is wider and taller than the container. -/
def crampedLayout : Layout :=
  { coordinate := 20, tipWidth := 200, tipHeight := 60, clientWidth := 100, clientHeight := 40 }

/-! # Theorems -/

/-! ## Lemmas on property reads, conversions and callbacks -/

theorem getProp_ok_of_ok {v : JsVal} {k : String} {x : JsVal} (h : getProp v k = .ok x)
    (k2 : String) : ∃ y, getProp v k2 = .ok y := by
  cases v <;> simp [getProp] at h ⊢

mutual
/-- A convertible value has a string form. -/
theorem toStr_ok_of_convertible (R : Runtime) :
    ∀ v : JsVal, v.convertible = true → ∃ s, toStr R v = .ok s
  | .undefined, _ => ⟨_, rfl⟩
  | .null, _ => ⟨_, rfl⟩
  | .bool true, _ => ⟨_, rfl⟩
  | .bool false, _ => ⟨_, rfl⟩
  | .num _, _ => ⟨_, rfl⟩
  | .str _, _ => ⟨_, rfl⟩
  | .arr xs, h => by
    obtain ⟨ps, hps⟩ := elemStrings_ok_of_convertible R xs (by simpa [JsVal.convertible] using h)
    exact ⟨String.intercalate "," ps, by simp [toStr, hps]⟩
  | .obj fields, h => by
    simp only [JsVal.convertible, Option.isNone_iff_eq_none] at h
    exact ⟨"[object Object]", by simp [toStr, h]⟩
theorem elemStrings_ok_of_convertible (R : Runtime) :
    ∀ xs : List JsVal, JsVal.allConvertible xs = true → ∃ ps, elemStrings R xs = .ok ps
  | [], _ => ⟨[], rfl⟩
  | x :: xs, h => by
    simp only [JsVal.allConvertible, Bool.and_eq_true] at h
    obtain ⟨ps, hps⟩ := elemStrings_ok_of_convertible R xs h.2
    obtain ⟨p, hp⟩ := toStr_ok_of_convertible R x h.1
    cases x <;> simp [elemStrings, hps, hp]
end

theorem toPrimitive_ok_of_convertible (R : Runtime) (v : JsVal) (h : v.convertible = true) :
    ∃ p, toPrimitive R v = .ok p := by
  obtain ⟨s, hs⟩ := toStr_ok_of_convertible R v h
  cases v <;> simp [toPrimitive, hs, Except.map]

theorem epochSeconds_ok_of_convertible (R : Runtime) (v : JsVal) (h : v.convertible = true) :
    ∃ n, epochSeconds R v = .ok n := by
  obtain ⟨p, hp⟩ := toPrimitive_ok_of_convertible R v h
  have hd : ∃ t, dateGetTime R v = .ok t := by
    simp only [dateGetTime, hp, bind, Except.bind]
    split <;> exact ⟨_, rfl⟩
  obtain ⟨t, ht⟩ := hd
  cases t <;> simp [epochSeconds, ht, bind, Except.bind, pure, Except.pure]

theorem jsParseFloat_ok_of_convertible (R : Runtime) (v : JsVal) (h : v.convertible = true) :
    ∃ n, jsParseFloat R v = .ok n := by
  obtain ⟨s, hs⟩ := toStr_ok_of_convertible R v h
  exact ⟨R.parseFloat s, by simp [jsParseFloat, hs, bind, Except.bind, pure, Except.pure]⟩

/-- The marker both callbacks of a script build once every conversion has returned. -/
theorem tradeMarker_of_fields (V : Variant) (R : Runtime) (rec t size price : JsVal)
    (side sizeText priceText : String) (seconds : JsNum)
    (h0 : getProp rec "time" = .ok t) (ht : epochSeconds R t = .ok seconds)
    (h1 : getProp rec "type" = .ok (.str side))
    (h2 : getProp rec "size" = .ok size) (hs : toStr R size = .ok sizeText)
    (h3 : getProp rec "price" = .ok price) (hp : toStr R price = .ok priceText) :
    tradeMarker V R rec = .ok
      { time := seconds
        position := if side = "buy" then "belowBar" else "aboveBar"
        color := if side = "buy" then "#4caf50" else "#ef5350"
        shape := if side = "buy" then "arrowUp" else "arrowDown"
        text := match V with
          | .assets => ""
          | .backtesting => R.toUpperCase side ++ " " ++ sizeText ++ " @ " ++ priceText
        tooltip := match V with
          | .assets => some (R.toUpperCase side ++ " " ++ sizeText ++ " @ " ++ priceText)
          | .backtesting => none
        size := 2 } := by
  cases V <;>
    simp [tradeMarker, Assets.tradeMarker, Backtesting.tradeMarker, h0, ht, h1, h2, hs, h3, hp,
      callToUpperCase, isBuy, bind, Except.bind, pure, Except.pure]

theorem tradeMarker_eq_orderMarker : tradeMarker = orderMarker := by
  funext V R rec
  cases V <;> rfl

/-- The fields of a record on which the marker callbacks return. -/
theorem markerReady_fields {rec : JsVal} (h : markerReady rec = true) :
    ∃ (t size price : JsVal) (side : String),
      getProp rec "time" = .ok t ∧ getProp rec "type" = .ok (.str side) ∧
      getProp rec "size" = .ok size ∧ getProp rec "price" = .ok price ∧
      t.convertible = true ∧ size.convertible = true ∧ price.convertible = true := by
  unfold markerReady at h
  split at h
  · next t side s p h0 h1 h2 h3 =>
    simp only [Bool.and_eq_true] at h
    exact ⟨t, s, p, side, h0, h1, h2, h3, h.1.1, h.1.2, h.2⟩
  · simp at h

theorem tradeMarker_ok_of_ready (V : Variant) (R : Runtime) (rec : JsVal)
    (h : markerReady rec = true) : ∃ m, tradeMarker V R rec = .ok m := by
  obtain ⟨t, size, price, side, h0, h1, h2, h3, ct, cs, cp⟩ := markerReady_fields h
  obtain ⟨seconds, ht⟩ := epochSeconds_ok_of_convertible R t ct
  obtain ⟨sizeText, hs⟩ := toStr_ok_of_convertible R size cs
  obtain ⟨priceText, hp⟩ := toStr_ok_of_convertible R price cp
  exact ⟨_, tradeMarker_of_fields V R rec t size price side sizeText priceText seconds
    h0 ht h1 h2 hs h3 hp⟩

theorem mapElems_ok {β : Type} (f : JsVal → Except JsError β) :
    ∀ xs : List JsVal, (∀ x ∈ xs, ∃ y, f x = .ok y) →
      ∃ ys, mapElems f xs = .ok ys ∧ ys.length = xs.length ∧
        ∀ i (h : i < xs.length), ∃ y, f (xs.get ⟨i, h⟩) = .ok y ∧ ys[i]? = some y
  | [], _ => ⟨[], rfl, rfl, fun i h => absurd h (Nat.not_lt_zero i)⟩
  | x :: xs, hall => by
    obtain ⟨y, hy⟩ := hall x (List.mem_cons_self x xs)
    obtain ⟨ys, hys, hlen, hidx⟩ :=
      mapElems_ok f xs (fun z hz => hall z (List.mem_cons_of_mem x hz))
    refine ⟨y :: ys, by simp [mapElems, hy, hys], by simp [hlen], ?_⟩
    intro i h
    cases i with
    | zero => exact ⟨y, hy, by simp⟩
    | succ j =>
      have hj : j < xs.length := by simpa using h
      obtain ⟨z, hz, hzi⟩ := hidx j hj
      exact ⟨z, hz, by simpa using hzi⟩

theorem nonEmpty_arr (R : Runtime) (data : JsVal) (key : String) (xs : List JsVal)
    (h : getProp data key = .ok (.arr xs)) :
    nonEmpty R data key = .ok (if xs = [] then none else some (.arr xs)) := by
  cases xs with
  | nil =>
    simp only [nonEmpty, h, bind, Except.bind]
    simp [JsVal.truthy, getProp, gtZero, toPrimitive, primToNumber, JsNum.gtZero, pure,
      Except.pure, bind, Except.bind]
  | cons x xs =>
    have : (0 : ℚ) < (xs.length : ℚ) + 1 := by positivity
    simp only [nonEmpty, h, bind, Except.bind]
    simp [JsVal.truthy, getProp, gtZero, toPrimitive, primToNumber, JsNum.gtZero, pure,
      Except.pure, bind, Except.bind, this]

theorem nonEmpty_undefined (R : Runtime) (data : JsVal) (key : String)
    (h : getProp data key = .ok .undefined) : nonEmpty R data key = .ok none := by
  simp [nonEmpty, h, JsVal.truthy, bind, Except.bind, pure, Except.pure]

/-- The guard of one block: it is skipped on no records and passes on some. -/
theorem block_of_records (R : Runtime) (data : JsVal) (key : String)
    (rs : List JsVal) (h : HasRecords data key rs) :
    (nonEmpty R data key = .ok none ∧ rs = []) ∨
      (nonEmpty R data key = .ok (some (.arr rs)) ∧ rs ≠ []) := by
  rcases h with h | ⟨h, rfl⟩
  · by_cases hrs : rs = []
    · left; exact ⟨by simpa [hrs] using nonEmpty_arr R data key rs h, hrs⟩
    · right; exact ⟨by simpa [hrs] using nonEmpty_arr R data key rs h, hrs⟩
  · left; exact ⟨nonEmpty_undefined R data key h, rfl⟩

theorem allMarkers_of_records (V : Variant) (R : Runtime) (data : JsVal)
    (trades orders : List JsVal) (tm om : List Marker)
    (hT : HasRecords data "tradeData" trades) (hO : HasRecords data "orderData" orders)
    (htm : mapElems (tradeMarker V R) trades = .ok tm)
    (hom : mapElems (orderMarker V R) orders = .ok om) :
    allMarkers V R data = .ok (tm ++ om) := by
  rcases block_of_records R data "tradeData" trades hT with ⟨h1, rfl⟩ | ⟨h1, _⟩ <;>
    rcases block_of_records R data "orderData" orders hO with ⟨h2, rfl⟩ | ⟨h2, _⟩ <;>
    simp_all [allMarkers, callMap, mapElems, bind, Except.bind, pure, Except.pure]

/-! ## C1: the merged marker list -/

/-- C1 (amended): with `N` trade records and `M` order records, each with a string `type` and
with `time`, `size` and `price` that convert to a primitive, `allMarkers` has exactly `N + M`
entries; entry `i < N` is the marker of `tradeData[i]` and entry `N + j` is the marker of
`orderData[j]`, in both scripts. -/
theorem allMarkers_trades_then_orders (V : Variant) (R : Runtime) (data : JsVal)
    (trades orders : List JsVal)
    (hT : HasRecords data "tradeData" trades) (hO : HasRecords data "orderData" orders)
    (hTs : ∀ r ∈ trades, markerReady r = true)
    (hOs : ∀ r ∈ orders, markerReady r = true) :
    ∃ ms, allMarkers V R data = .ok ms ∧ ms.length = trades.length + orders.length ∧
      (∀ i (h : i < trades.length),
        ∃ m, tradeMarker V R (trades.get ⟨i, h⟩) = .ok m ∧ ms[i]? = some m) ∧
      (∀ j (h : j < orders.length),
        ∃ m, orderMarker V R (orders.get ⟨j, h⟩) = .ok m ∧ ms[trades.length + j]? = some m) := by
  obtain ⟨tm, htm, htl, hti⟩ := mapElems_ok (tradeMarker V R) trades
    (fun r hr => tradeMarker_ok_of_ready V R r (hTs r hr))
  obtain ⟨om, hom, hol, hoi⟩ := mapElems_ok (orderMarker V R) orders
    (fun r hr => tradeMarker_eq_orderMarker ▸ tradeMarker_ok_of_ready V R r (hOs r hr))
  refine ⟨tm ++ om, allMarkers_of_records V R data trades orders tm om hT hO htm hom,
    by simp [htl, hol], ?_, ?_⟩
  · intro i h
    obtain ⟨m, hm, hmi⟩ := hti i h
    exact ⟨m, hm, by rw [List.getElem?_append_left (by omega)]; exact hmi⟩
  · intro j h
    obtain ⟨m, hm, hmj⟩ := hoi j h
    refine ⟨m, hm, ?_⟩
    rw [List.getElem?_append_right (by omega)]
    simpa [htl] using hmj

/-- C1 (witness): the sample response has two ready trades and one ready order, and its merged
list has three entries. -/
theorem allMarkers_trades_then_orders_witness :
    HasRecords sampleResponse "tradeData" [sampleBuy, sampleSell] ∧
    HasRecords sampleResponse "orderData" [sampleUpperBuy] ∧
    (∀ r ∈ [sampleBuy, sampleSell], markerReady r = true) ∧
    (∀ r ∈ [sampleUpperBuy], markerReady r = true) ∧
    ∃ ms, allMarkers .assets ecma sampleResponse = .ok ms ∧ ms.length = 2 + 1 :=
  ⟨by decide, by decide, by decide, by decide,
    (allMarkers_trades_then_orders .assets ecma sampleResponse [sampleBuy, sampleSell]
      [sampleUpperBuy] (by decide) (by decide) (by decide) (by decide)).imp
      fun _ h => ⟨h.1, h.2.1⟩⟩

/-- C1 (counterexample): a response with one trade record and no order record has `N + M = 1`,
yet no merged list of one entry is built when the record has no `type` (reading
`trade.type.toUpperCase` raises a `TypeError`) or when its `size`, `price` or `time` is the
object `{"toString": null}` (the template literal or `new Date` raises a `TypeError`): in
both scripts the handler ends with the exception, without a call of `setMarkers` or
`fitContent`. -/
theorem markers_not_built :
    HasRecords (.obj [("tradeData", .arr [untypedTrade])]) "tradeData" [untypedTrade] ∧
    HasRecords (.obj [("tradeData", .arr [untypedTrade])]) "orderData" [] ∧
    allMarkers .assets ecma (.obj [("tradeData", .arr [untypedTrade])]) = .error .nullish ∧
    allMarkers .backtesting ecma (.obj [("tradeData", .arr [untypedTrade])]) =
      .error .nullish ∧
    onData .assets ecma (.obj [("tradeData", .arr [untypedTrade])]) =
      { calls := [], error := some .nullish } ∧
    onData .backtesting ecma (.obj [("tradeData", .arr [untypedTrade])]) =
      { calls := [], error := some .nullish } ∧
    allMarkers .assets ecma (.obj [("tradeData", .arr [eventRecord
      (.str "2024-01-01T00:00:00Z") (.str "buy") unprintable (.num (.finite 100))])]) =
      .error .notPrimitive ∧
    allMarkers .backtesting ecma (.obj [("tradeData", .arr [eventRecord
      (.str "2024-01-01T00:00:00Z") (.str "buy") unprintable (.num (.finite 100))])]) =
      .error .notPrimitive ∧
    allMarkers .assets ecma (.obj [("tradeData", .arr [eventRecord
      (.str "2024-01-01T00:00:00Z") (.str "buy") (.num (.finite 1)) unprintable])]) =
      .error .notPrimitive ∧
    allMarkers .assets ecma (.obj [("tradeData", .arr [eventRecord
      unprintable (.str "buy") (.num (.finite 1)) (.num (.finite 100))])]) =
      .error .notPrimitive := by
  decide!

/-! ## C2, C3, C10: styling and label of a marker -/

/-- C2 (amended): in both scripts, for a record whose `time`, `size` and `price` convert to a
primitive, both callbacks return the same marker; when `type` is `"buy"` it has position
`belowBar`, shape `arrowUp` and color `#4caf50`, when `type` is `"sell"` it has position
`aboveBar`, shape `arrowDown` and color `#ef5350`; the trade callback and the order callback
are the same function. -/
theorem side_styling (V : Variant) (R : Runtime) (rec : JsVal) (side : String)
    (hType : getProp rec "type" = .ok (.str side)) (hReady : markerReady rec = true) :
    tradeMarker V R = orderMarker V R ∧
    ∃ m, tradeMarker V R rec = .ok m ∧ orderMarker V R rec = .ok m ∧
      (side = "buy" → m.position = "belowBar" ∧ m.shape = "arrowUp" ∧ m.color = "#4caf50") ∧
      (side = "sell" →
        m.position = "aboveBar" ∧ m.shape = "arrowDown" ∧ m.color = "#ef5350") := by
  obtain ⟨t, size, price, side2, h0, h1, h2, h3, ct, cs, cp⟩ := markerReady_fields hReady
  obtain ⟨seconds, ht⟩ := epochSeconds_ok_of_convertible R t ct
  obtain ⟨sizeText, hs⟩ := toStr_ok_of_convertible R size cs
  obtain ⟨priceText, hp⟩ := toStr_ok_of_convertible R price cp
  have hm := tradeMarker_of_fields V R rec t size price side sizeText priceText seconds
    h0 ht hType h2 hs h3 hp
  refine ⟨by rw [tradeMarker_eq_orderMarker], _, hm,
    by rw [← tradeMarker_eq_orderMarker]; exact hm, ?_, ?_⟩
  · rintro rfl
    simp
  · rintro rfl
    simp

/-- C2 (witness): the sample sell record. -/
theorem side_styling_witness :
    getProp sampleSell "type" = .ok (.str "sell") ∧ markerReady sampleSell = true ∧
    ∃ m, tradeMarker .backtesting ecma sampleSell = .ok m ∧
      orderMarker .backtesting ecma sampleSell = .ok m ∧
      m.position = "aboveBar" ∧ m.shape = "arrowDown" ∧ m.color = "#ef5350" :=
  ⟨rfl, by decide, (side_styling .backtesting ecma sampleSell "sell" rfl (by decide)).2.imp
    fun _ h => ⟨h.1, h.2.1, h.2.2.2 rfl⟩⟩

/-- C2 (counterexample): a buy-side record yields no marker when its `time`, its `size` or its
`price` is the object `{"toString": null}`: `new Date(trade.time)` or the template literal
raises a `TypeError` in both callbacks of both scripts. -/
theorem unconvertible_buy_yields_no_marker :
    getProp (eventRecord unprintable (.str "buy") (.num (.finite 1)) (.num (.finite 100)))
      "type" = .ok (.str "buy") ∧
    tradeMarker .assets ecma
      (eventRecord unprintable (.str "buy") (.num (.finite 1)) (.num (.finite 100))) =
      .error .notPrimitive ∧
    tradeMarker .assets ecma
      (eventRecord (.str "2024-01-01T00:00:00Z") (.str "buy") unprintable
        (.num (.finite 100))) = .error .notPrimitive ∧
    tradeMarker .assets ecma
      (eventRecord (.str "2024-01-01T00:00:00Z") (.str "buy") (.num (.finite 1))
        unprintable) = .error .notPrimitive ∧
    orderMarker .assets ecma
      (eventRecord (.str "2024-01-01T00:00:00Z") (.str "buy") unprintable
        (.num (.finite 100))) = .error .notPrimitive ∧
    tradeMarker .backtesting ecma
      (eventRecord (.str "2024-01-01T00:00:00Z") (.str "buy") unprintable
        (.num (.finite 100))) = .error .notPrimitive ∧
    orderMarker .backtesting ecma
      (eventRecord (.str "2024-01-01T00:00:00Z") (.str "buy") unprintable
        (.num (.finite 100))) = .error .notPrimitive := by
  decide!

/-- C3 (amended): for a record whose `type` is a string and whose `time`, `size` and `price`
convert to a primitive, both callbacks of a script return a marker whose label is
`upper-case(type) ++ " " ++ string(size) ++ " @ " ++ string(price)`; the backtesting script
carries it in `text` (and has no `tooltip`), the assets script carries it in `tooltip` with
`text` the empty string. -/
theorem marker_label (V : Variant) (R : Runtime) (rec size price : JsVal) (side : String)
    (hType : getProp rec "type" = .ok (.str side))
    (hSize : getProp rec "size" = .ok size)
    (hPrice : getProp rec "price" = .ok price)
    (hReady : markerReady rec = true) :
    ∃ (m : Marker) (sizeText priceText : String),
      toStr R size = .ok sizeText ∧ toStr R price = .ok priceText ∧
      tradeMarker V R rec = .ok m ∧ orderMarker V R rec = .ok m ∧
      m.label V = some (R.toUpperCase side ++ " " ++ sizeText ++ " @ " ++ priceText) ∧
      (V = .backtesting →
        m.text = R.toUpperCase side ++ " " ++ sizeText ++ " @ " ++ priceText ∧
        m.tooltip = none) ∧
      (V = .assets →
        m.tooltip = some (R.toUpperCase side ++ " " ++ sizeText ++ " @ " ++ priceText) ∧
        m.text = "") := by
  obtain ⟨t, size2, price2, side2, h0, h1, h2, h3, ct, cs, cp⟩ := markerReady_fields hReady
  have es : size2 = size := Except.ok.inj (h2.symm.trans hSize)
  have ep : price2 = price := Except.ok.inj (h3.symm.trans hPrice)
  subst es ep
  obtain ⟨seconds, ht⟩ := epochSeconds_ok_of_convertible R t ct
  obtain ⟨sizeText, hs⟩ := toStr_ok_of_convertible R size2 cs
  obtain ⟨priceText, hp⟩ := toStr_ok_of_convertible R price2 cp
  have hm := tradeMarker_of_fields V R rec t size2 price2 side sizeText priceText seconds
    h0 ht hType h2 hs h3 hp
  refine ⟨_, sizeText, priceText, hs, hp, hm,
    by rw [← tradeMarker_eq_orderMarker]; exact hm, ?_, ?_, ?_⟩
  · cases V <;> simp [Marker.label]
  · rintro rfl
    simp
  · rintro rfl
    simp

/-- C3 (witness): the sample buy record is labelled `BUY 1 @ 100` in `tooltip` by the assets
script. -/
theorem marker_label_witness :
    getProp sampleBuy "type" = .ok (.str "buy") ∧
    getProp sampleBuy "size" = .ok (.num (.finite 1)) ∧
    getProp sampleBuy "price" = .ok (.num (.finite 100)) ∧
    markerReady sampleBuy = true ∧
    ∃ m, tradeMarker .assets ecma sampleBuy = .ok m ∧ m.tooltip = some "BUY 1 @ 100" ∧
      m.text = "" := by
  refine ⟨rfl, rfl, rfl, by decide, ?_⟩
  obtain ⟨m, sizeText, priceText, hs, hp, hm, _, _, _, ha⟩ :=
    marker_label .assets ecma sampleBuy (.num (.finite 1)) (.num (.finite 100)) "buy"
      rfl rfl rfl (by decide)
  have h1 : sizeText = "1" := Except.ok.inj (hs.symm.trans (by decide!))
  have h2 : priceText = "100" := Except.ok.inj (hp.symm.trans (by decide!))
  subst h1 h2
  exact ⟨m, hm, (ha rfl).1.trans (by decide!), (ha rfl).2⟩

/-- C3 (counterexample): a record with the fields `type`, `size` and `price` has no marker and
no label when `size` is the object `{"toString": null}`, which has no string form (likewise
for `price` and for `time`), or when `type` is the number `5`, which has no `toUpperCase`:
both scripts raise a `TypeError`. -/
theorem record_without_label :
    getProp (eventRecord (.str "2024-01-01T00:00:00Z") (.str "buy") unprintable
      (.num (.finite 100))) "size" = .ok unprintable ∧
    toStr ecma unprintable = .error .notPrimitive ∧
    tradeMarker .assets ecma (eventRecord (.str "2024-01-01T00:00:00Z") (.str "buy")
      unprintable (.num (.finite 100))) = .error .notPrimitive ∧
    tradeMarker .backtesting ecma (eventRecord (.str "2024-01-01T00:00:00Z") (.str "buy")
      unprintable (.num (.finite 100))) = .error .notPrimitive ∧
    tradeMarker .assets ecma (eventRecord (.str "2024-01-01T00:00:00Z") (.str "buy")
      (.num (.finite 1)) unprintable) = .error .notPrimitive ∧
    tradeMarker .assets ecma (eventRecord unprintable (.str "buy")
      (.num (.finite 1)) (.num (.finite 100))) = .error .notPrimitive ∧
    tradeMarker .assets ecma (eventRecord (.str "2024-01-01T00:00:00Z") (.num (.finite 5))
      (.num (.finite 1)) (.num (.finite 100))) = .error .notCallable ∧
    tradeMarker .backtesting ecma (eventRecord (.str "2024-01-01T00:00:00Z")
      (.num (.finite 5)) (.num (.finite 1)) (.num (.finite 100))) = .error .notCallable := by
  decide!

/-- C10 (amended): in both scripts, a record whose `type` is a string other than exactly
`"buy"` and whose `time`, `size` and `price` convert to a primitive gets the sell styling
(position `aboveBar`, shape `arrowDown`, color `#ef5350`) from both callbacks; the test is
case-sensitive while the label is upper-cased, and for the record `sampleUpperBuy` (type
`"BUY"`) the marker labelled `BUY 1 @ 100` has the sell styling. -/
theorem non_buy_is_sell_styled (V : Variant) (R : Runtime) (rec : JsVal) (side : String)
    (hType : getProp rec "type" = .ok (.str side)) (hSide : side ≠ "buy")
    (hReady : markerReady rec = true) :
    (∃ m, tradeMarker V R rec = .ok m ∧ orderMarker V R rec = .ok m ∧
      m.position = "aboveBar" ∧ m.shape = "arrowDown" ∧ m.color = "#ef5350") ∧
    (∃ m, tradeMarker V ecma sampleUpperBuy = .ok m ∧ orderMarker V ecma sampleUpperBuy = .ok m ∧
      m.label V = some "BUY 1 @ 100" ∧
      m.position = "aboveBar" ∧ m.shape = "arrowDown" ∧ m.color = "#ef5350") := by
  obtain ⟨t, size, price, side2, h0, h1, h2, h3, ct, cs, cp⟩ := markerReady_fields hReady
  obtain ⟨seconds, ht⟩ := epochSeconds_ok_of_convertible R t ct
  obtain ⟨sizeText, hs⟩ := toStr_ok_of_convertible R size cs
  obtain ⟨priceText, hp⟩ := toStr_ok_of_convertible R price cp
  have hm := tradeMarker_of_fields V R rec t size price side sizeText priceText seconds
    h0 ht hType h2 hs h3 hp
  refine ⟨⟨_, hm, by rw [← tradeMarker_eq_orderMarker]; exact hm, ?_, ?_, ?_⟩, ?_⟩
  · simp [hSide]
  · simp [hSide]
  · simp [hSide]
  · have hu := tradeMarker_of_fields V ecma sampleUpperBuy (.str "2024-01-01T00:00:00Z")
      (.num (.finite 1)) (.num (.finite 100)) "BUY" "1" "100" (.finite 1704067200)
      rfl (by decide!) rfl rfl (by decide!) rfl (by decide!)
    have hl : ecma.toUpperCase "BUY" ++ " " ++ "1" ++ " @ " ++ "100" = "BUY 1 @ 100" := by
      decide
    refine ⟨_, hu, by rw [← tradeMarker_eq_orderMarker]; exact hu, ?_, ?_, ?_, ?_⟩
    · cases V <;> simp [Marker.label, hl]
    · simp
    · simp
    · simp

/-- C10 (witness): the sample sell record. -/
theorem non_buy_is_sell_styled_witness :
    getProp sampleSell "type" = .ok (.str "sell") ∧ "sell" ≠ "buy" ∧
    markerReady sampleSell = true ∧
    ∃ m, tradeMarker .assets ecma sampleSell = .ok m ∧ m.position = "aboveBar" :=
  ⟨rfl, by decide, by decide,
    (non_buy_is_sell_styled .assets ecma sampleSell "sell" rfl (by decide) (by decide)).1.imp
      fun _ h => ⟨h.1, h.2.2.1⟩⟩

/-- C10 (counterexample): a record whose `type` is the string `"sell"`, or `"BUY"`, gets no
marker and so no styling when its `price` is the object `{"toString": null}`: the template
literal raises a `TypeError` in both callbacks of both scripts. -/
theorem unconvertible_sell_yields_no_marker :
    getProp (eventRecord (.str "2024-01-01T00:00:00Z") (.str "sell") (.num (.finite 1))
      unprintable) "type" = .ok (.str "sell") ∧
    tradeMarker .assets ecma (eventRecord (.str "2024-01-01T00:00:00Z") (.str "sell")
      (.num (.finite 1)) unprintable) = .error .notPrimitive ∧
    orderMarker .assets ecma (eventRecord (.str "2024-01-01T00:00:00Z") (.str "sell")
      (.num (.finite 1)) unprintable) = .error .notPrimitive ∧
    tradeMarker .backtesting ecma (eventRecord (.str "2024-01-01T00:00:00Z") (.str "sell")
      (.num (.finite 1)) unprintable) = .error .notPrimitive ∧
    orderMarker .backtesting ecma (eventRecord (.str "2024-01-01T00:00:00Z") (.str "sell")
      (.num (.finite 1)) unprintable) = .error .notPrimitive ∧
    tradeMarker .assets ecma (eventRecord (.str "2024-01-01T00:00:00Z") (.str "BUY")
      (.num (.finite 1)) unprintable) = .error .notPrimitive ∧
    tradeMarker .assets ecma (eventRecord unprintable (.str "sell")
      (.num (.finite 1)) (.num (.finite 100))) = .error .notPrimitive ∧
    tradeMarker .assets ecma (eventRecord (.str "2024-01-01T00:00:00Z") (.str "sell")
      unprintable (.num (.finite 100))) = .error .notPrimitive := by
  decide!

/-! ## C5: epoch seconds -/

theorem propOr_of_getProp {v : JsVal} {k1 k2 : String} {a b : JsVal}
    (h1 : getProp v k1 = .ok a) (h2 : getProp v k2 = .ok b) :
    propOr v k1 k2 = .ok (if a.truthy then a else b) := by
  simp only [propOr, h1, h2, bind, Except.bind]
  split <;> rfl

/-- The modelling of `Math.floor(ms / 1000)` by an exact quotient is sound for doubles: a
rounding `rnd` that is exact on integers up to `8.64e12` and moves a value of that magnitude by
at most `1 / 2048` (half a unit in the last place below `2 ^ 43`) does not change the floor of
`T / 1000` for an integral `T` in the range of time values, `|T| ≤ 8.64e15`. -/
theorem floor_rounded_quotient (rnd : ℚ → ℚ)
    (hInt : ∀ n : Int, |(n : ℚ)| ≤ 8640000000000 → rnd n = n)
    (hErr : ∀ x : ℚ, |x| ≤ 8640000000000 → |rnd x - x| ≤ 1 / 2048)
    (T : Int) (hT : |T| ≤ 8640000000000000) :
    Int.floor (rnd ((T : ℚ) / 1000)) = Int.floor ((T : ℚ) / 1000) := by
  obtain ⟨k, r, hk, hr0, hr1⟩ : ∃ k r : Int, T = 1000 * k + r ∧ 0 ≤ r ∧ r ≤ 999 :=
    ⟨T / 1000, T % 1000, (Int.ediv_add_emod T 1000).symm, Int.emod_nonneg T (by norm_num),
      by have := Int.emod_lt_of_pos T (show (0 : Int) < 1000 by norm_num); omega⟩
  have hTq : |(T : ℚ)| ≤ 8640000000000000 := by exact_mod_cast hT
  have hx : |(T : ℚ) / 1000| ≤ 8640000000000 := by
    rw [abs_div, abs_of_pos (show (0 : ℚ) < 1000 by norm_num), div_le_iff₀ (by norm_num)]
    linarith
  have hxk : (T : ℚ) / 1000 = (k : ℚ) + (r : ℚ) / 1000 := by
    rw [hk]
    push_cast
    ring
  have hr0q : (0 : ℚ) ≤ (r : ℚ) := by exact_mod_cast hr0
  have hr1q : (r : ℚ) ≤ 999 := by exact_mod_cast hr1
  have hfloor : Int.floor ((T : ℚ) / 1000) = k := by
    rw [Int.floor_eq_iff, hxk]
    constructor <;> linarith
  rw [hfloor]
  rcases eq_or_lt_of_le hr0 with h0 | hpos
  · have hxk2 : (T : ℚ) / 1000 = (k : ℚ) := by rw [hxk, ← h0]; simp
    rw [hxk2, hInt k (by rw [← hxk2]; exact hx)]
    exact Int.floor_intCast k
  · have hrq : (1 : ℚ) ≤ (r : ℚ) := by exact_mod_cast hpos
    have he := abs_le.mp (hErr _ hx)
    rw [Int.floor_eq_iff]
    constructor <;> linarith [he.1, he.2]

theorem epochSeconds_bounds (R : Runtime) (ts : JsVal) (T : Int)
    (hT : dateGetTime R ts = .ok (some T)) :
    ∃ t : Int, epochSeconds R ts = .ok (.finite t) ∧ 1000 * t ≤ T ∧ T < 1000 * (t + 1) := by
  refine ⟨Int.floor ((T : ℚ) / 1000),
    by simp [epochSeconds, hT, bind, Except.bind, pure, Except.pure], ?_, ?_⟩
  · have h1 := Int.floor_le ((T : ℚ) / 1000)
    have h2 : (T : ℚ) / 1000 * 1000 = T := by ring
    have : (1000 * (Int.floor ((T : ℚ) / 1000) : ℚ)) ≤ (T : ℚ) := by linarith
    exact_mod_cast this
  · have h1 := Int.lt_floor_add_one ((T : ℚ) / 1000)
    have h2 : (T : ℚ) / 1000 * 1000 = T := by ring
    have : (T : ℚ) < 1000 * ((Int.floor ((T : ℚ) / 1000) : ℚ) + 1) := by linarith
    exact_mod_cast this

/-- The bar the callback builds once every conversion has returned. -/
theorem priceBar_of_fields (R : Runtime) (d : JsVal) (t o h l c : JsVal)
    (seconds no nh nl nc : JsNum)
    (ht : propOr d "time" "Date" = .ok t) (hts : epochSeconds R t = .ok seconds)
    (ho : propOr d "open" "Open" = .ok o) (hno : jsParseFloat R o = .ok no)
    (hh : propOr d "high" "High" = .ok h) (hnh : jsParseFloat R h = .ok nh)
    (hl : propOr d "low" "Low" = .ok l) (hnl : jsParseFloat R l = .ok nl)
    (hc : propOr d "close" "Close" = .ok c) (hnc : jsParseFloat R c = .ok nc) :
    priceBar R d = .ok
      { time := seconds, open_ := no, high := nh, low := nl, close := nc } := by
  simp [priceBar, ht, hts, ho, hno, hh, hnh, hl, hnl, hc, hnc, bind, Except.bind, pure,
    Except.pure]

/-- The values of a record on which the bar callback returns. -/
theorem barReady_fields {d : JsVal} (hd : barReady d = true) :
    ∃ t o h l c : JsVal,
      propOr d "time" "Date" = .ok t ∧ propOr d "open" "Open" = .ok o ∧
      propOr d "high" "High" = .ok h ∧ propOr d "low" "Low" = .ok l ∧
      propOr d "close" "Close" = .ok c ∧
      t.convertible = true ∧ o.convertible = true ∧ h.convertible = true ∧
      l.convertible = true ∧ c.convertible = true := by
  unfold barReady at hd
  split at hd
  · next t o h l c h0 h1 h2 h3 h4 =>
    simp only [Bool.and_eq_true] at hd
    exact ⟨t, o, h, l, c, h0, h1, h2, h3, h4, hd.1.1.1.1, hd.1.1.1.2, hd.1.1.2, hd.1.2, hd.2⟩
  · simp at hd

/-- The bar of a record on which the bar callback returns, with the values it converts. -/
theorem priceBar_of_ready (R : Runtime) (d : JsVal) (hd : barReady d = true) :
    ∃ (t o h l c : JsVal) (b : Bar),
      propOr d "time" "Date" = .ok t ∧ propOr d "open" "Open" = .ok o ∧
      propOr d "high" "High" = .ok h ∧ propOr d "low" "Low" = .ok l ∧
      propOr d "close" "Close" = .ok c ∧ priceBar R d = .ok b ∧
      epochSeconds R t = .ok b.time ∧ jsParseFloat R o = .ok b.open_ ∧
      jsParseFloat R h = .ok b.high ∧ jsParseFloat R l = .ok b.low ∧
      jsParseFloat R c = .ok b.close := by
  obtain ⟨t, o, h, l, c, h0, h1, h2, h3, h4, ct, co, ch, cl, cc⟩ := barReady_fields hd
  obtain ⟨seconds, hts⟩ := epochSeconds_ok_of_convertible R t ct
  obtain ⟨no, hno⟩ := jsParseFloat_ok_of_convertible R o co
  obtain ⟨nh, hnh⟩ := jsParseFloat_ok_of_convertible R h ch
  obtain ⟨nl, hnl⟩ := jsParseFloat_ok_of_convertible R l cl
  obtain ⟨nc, hnc⟩ := jsParseFloat_ok_of_convertible R c cc
  exact ⟨t, o, h, l, c, _, h0, h1, h2, h3, h4,
    priceBar_of_fields R d t o h l c seconds no nh nl nc h0 hts h1 hno h2 hnh h3 hnl h4 hnc,
    hts, hno, hnh, hnl, hnc⟩

theorem portfolioPoint_of_fields (R : Runtime) (d t v : JsVal) (seconds : JsNum)
    (ht : getProp d "time" = .ok t) (hts : epochSeconds R t = .ok seconds)
    (hv : getProp d "portfolio_value" = .ok v) :
    portfolioPoint R d = .ok { time := seconds, value := v } := by
  simp [portfolioPoint, ht, hts, hv, bind, Except.bind, pure, Except.pure]

/-- C5 (amended): for a record of any of the four streams on which the stream's callback
returns, and whose timestamp (the value handed to `new Date`) parses to epoch milliseconds
`T`, the callback emits the integer `time` with `1000 * time ≤ T < 1000 * (time + 1)`, that
is `floor(T / 1000)`; this holds for every integral `T`, so for `T ≥ 0`. -/
theorem emitted_time_is_floor (s : Stream) (V : Variant) (R : Runtime) (rec ts : JsVal)
    (T : Int) (hts : s.timestamp rec = .ok ts) (hT : dateGetTime R ts = .ok (some T))
    (hReady : s.ready rec = true) :
    ∃ t : Int, s.emittedTime V R rec = .ok (.finite t) ∧
      1000 * t ≤ T ∧ T < 1000 * (t + 1) := by
  obtain ⟨t, ht, hlo, hhi⟩ := epochSeconds_bounds R ts T hT
  refine ⟨t, ?_, hlo, hhi⟩
  cases s with
  | price =>
    obtain ⟨t2, o, h, l, c, b, h0, _, _, _, _, hb, hbt, _⟩ := priceBar_of_ready R rec hReady
    have e : t2 = ts := Except.ok.inj (h0.symm.trans hts)
    subst e
    have e2 : b.time = .finite t := Except.ok.inj (hbt.symm.trans ht)
    simp [Stream.emittedTime, hb, Except.map, e2]
  | portfolio =>
    obtain ⟨v, hv⟩ := getProp_ok_of_ok hts "portfolio_value"
    simp only [Stream.timestamp] at hts
    simp [Stream.emittedTime, portfolioPoint_of_fields R rec ts v (.finite t) hts ht hv,
      Except.map]
  | trade =>
    obtain ⟨t2, size, price, side, h0, h1, h2, h3, _, cs, cp⟩ := markerReady_fields hReady
    have e : t2 = ts := Except.ok.inj (h0.symm.trans hts)
    subst e
    obtain ⟨sizeText, hs⟩ := toStr_ok_of_convertible R size cs
    obtain ⟨priceText, hp⟩ := toStr_ok_of_convertible R price cp
    simp [Stream.emittedTime, tradeMarker_of_fields V R rec t2 size price side sizeText
      priceText (.finite t) h0 ht h1 h2 hs h3 hp, Except.map]
  | order =>
    obtain ⟨t2, size, price, side, h0, h1, h2, h3, _, cs, cp⟩ := markerReady_fields hReady
    have e : t2 = ts := Except.ok.inj (h0.symm.trans hts)
    subst e
    obtain ⟨sizeText, hs⟩ := toStr_ok_of_convertible R size cs
    obtain ⟨priceText, hp⟩ := toStr_ok_of_convertible R price cp
    simp [Stream.emittedTime, ← tradeMarker_eq_orderMarker,
      tradeMarker_of_fields V R rec t2 size price side sizeText priceText (.finite t)
        h0 ht h1 h2 hs h3 hp, Except.map]

/-- C5 (witness): the sample sell record, dated `2024-01-01T00:01:30Z`. -/
theorem emitted_time_is_floor_witness :
    Stream.timestamp .trade sampleSell = .ok (.str "2024-01-01T00:01:30Z") ∧
    dateGetTime ecma (.str "2024-01-01T00:01:30Z") = .ok (some 1704067290000) ∧
    Stream.ready .trade sampleSell = true ∧
    ∃ t : Int, Stream.emittedTime .trade .assets ecma sampleSell = .ok (.finite t) ∧
      1000 * t ≤ 1704067290000 ∧ 1704067290000 < 1000 * (t + 1) :=
  ⟨rfl, by decide, by decide,
    emitted_time_is_floor .trade .assets ecma sampleSell (.str "2024-01-01T00:01:30Z")
      1704067290000 rfl (by decide) (by decide)⟩

/-- C5 (counterexample): a record whose timestamp parses to `T = 1704067200000 ≥ 0` emits no
`time` at all when its callback raises a `TypeError` on another field: a trade or order whose
`size` is the object `{"toString": null}` or that has no `type`, and a price bar whose `open`
is that object. -/
theorem parsable_time_without_emission :
    Stream.timestamp .trade (eventRecord (.str "2024-01-01T00:00:00Z") (.str "buy")
      unprintable (.num (.finite 100))) = .ok (.str "2024-01-01T00:00:00Z") ∧
    dateGetTime ecma (.str "2024-01-01T00:00:00Z") = .ok (some 1704067200000) ∧
    Stream.emittedTime .trade .assets ecma (eventRecord (.str "2024-01-01T00:00:00Z")
      (.str "buy") unprintable (.num (.finite 100))) = .error .notPrimitive ∧
    Stream.emittedTime .order .backtesting ecma (eventRecord (.str "2024-01-01T00:00:00Z")
      (.str "buy") unprintable (.num (.finite 100))) = .error .notPrimitive ∧
    Stream.timestamp .trade untypedTrade = .ok (.str "2024-01-01T00:00:00Z") ∧
    Stream.emittedTime .trade .assets ecma untypedTrade = .error .nullish ∧
    Stream.timestamp .price unprintableOpenRecord = .ok (.str "2024-01-01T00:00:00Z") ∧
    Stream.emittedTime .price .assets ecma unprintableOpenRecord = .error .notPrimitive := by
  decide!

/-! ## C4: field choice of a price bar -/

/-- C4 (amended): for every price record on which the bar callback returns (the values it
converts convert to a primitive) and each of the five fields, the normalized bar is computed
from the lower-case property when that property is present and truthy, and from the
capitalized property when the lower-case one is absent or present but falsy (`0`, `NaN`, `""`,
`null`, `false`). -/
theorem priceBar_field_choice (R : Runtime) (fields : List (String × JsVal)) (f : BarField)
    (hReady : barReady (.obj fields) = true) :
    ∃ b, priceBar R (.obj fields) = .ok b ∧
      (∀ v, fields.lookup f.lower = some v → v.truthy = true →
        f.convert R v = .ok (f.read b)) ∧
      (∀ v, fields.lookup f.lower = some v → v.truthy = false →
        f.convert R ((fields.lookup f.upper).getD .undefined) = .ok (f.read b)) ∧
      (fields.lookup f.lower = none →
        f.convert R ((fields.lookup f.upper).getD .undefined) = .ok (f.read b)) := by
  have hp : ∀ k1 k2 : String, propOr (.obj fields) k1 k2 = .ok
      (if ((fields.lookup k1).getD .undefined).truthy then (fields.lookup k1).getD .undefined
        else (fields.lookup k2).getD .undefined) :=
    fun k1 k2 => propOr_of_getProp rfl rfl
  obtain ⟨t, o, h, l, c, b, h0, h1, h2, h3, h4, hb, ct, co, ch, cl, cc⟩ :=
    priceBar_of_ready R (.obj fields) hReady
  have e0 := Except.ok.inj ((hp "time" "Date").symm.trans h0)
  have e1 := Except.ok.inj ((hp "open" "Open").symm.trans h1)
  have e2 := Except.ok.inj ((hp "high" "High").symm.trans h2)
  have e3 := Except.ok.inj ((hp "low" "Low").symm.trans h3)
  have e4 := Except.ok.inj ((hp "close" "Close").symm.trans h4)
  subst e0 e1 e2 e3 e4
  refine ⟨b, hb, ?_, ?_, ?_⟩
  · intro v hv ht
    cases f <;> simp only [BarField.lower] at hv <;>
      simp only [BarField.read, BarField.convert] <;>
      simp_all
  · intro v hv ht
    cases f <;> simp only [BarField.lower] at hv <;>
      simp only [BarField.upper, BarField.read, BarField.convert] <;>
      simp_all
  · intro hv
    cases f <;> simp only [BarField.lower] at hv <;>
      simp only [BarField.upper, BarField.read, BarField.convert] <;>
      simp_all [JsVal.truthy]

/-- C4 (witness): in `zeroOpenRecord` the truthy lower-case `high` is the one converted. -/
theorem priceBar_field_choice_witness :
    barReady zeroOpenRecord = true ∧
    ∃ b, priceBar ecma zeroOpenRecord = .ok b ∧
      jsParseFloat ecma (.str "105") = .ok b.high :=
  ⟨by decide, (priceBar_field_choice ecma
    [("time", .str "2024-01-01T00:00:00Z"), ("open", .num (.finite 0)),
      ("Open", .str "100"), ("high", .str "105"), ("low", .str "99"), ("close", .str "102")]
    .high (by decide)).imp fun _ hb => ⟨hb.1, hb.2.1 (.str "105") rfl rfl⟩⟩

/-- C4 (counterexample): in `zeroOpenRecord` the lower-case `open` is present with value `0`,
yet the bar's `open` is `100`, computed from the capitalized `Open`, and not
`parseFloat(0) = 0`; and in `unprintableOpenRecord` the lower-case `open` is present, yet no
bar is computed from it: `parseFloat` raises a `TypeError`. -/
theorem lower_case_zero_is_skipped :
    getProp zeroOpenRecord "open" = .ok (.num (.finite 0)) ∧
    getProp zeroOpenRecord "Open" = .ok (.str "100") ∧
    priceBar ecma zeroOpenRecord = .ok
      { time := .finite 1704067200, open_ := .finite 100, high := .finite 105,
        low := .finite 99, close := .finite 102 } ∧
    jsParseFloat ecma (.num (.finite 0)) = .ok (.finite 0) ∧
    (JsNum.finite 100) ≠ .finite 0 ∧
    getProp unprintableOpenRecord "open" = .ok unprintable ∧
    priceBar ecma unprintableOpenRecord = .error .notPrimitive := by
  decide!

/-! ## C6: a response without events -/

/-- One guarded block does not throw when the callback returns on every record. -/
theorem block_ok {β : Type} (R : Runtime) (data : JsVal) (key : String) (rs : List JsVal)
    (f : JsVal → Except JsError β) (h : HasRecords data key rs)
    (hf : ∀ x ∈ rs, ∃ y, f x = .ok y) :
    ∃ r : Option (List β),
      (do
        match ← nonEmpty R data key with
        | some v => pure (some (← callMap v f))
        | none => pure none) = Except.ok r := by
  rcases block_of_records R data key rs h with ⟨h1, _⟩ | ⟨h1, _⟩
  · exact ⟨none, by simp [h1, bind, Except.bind, pure, Except.pure]⟩
  · obtain ⟨ys, hys, _⟩ := mapElems_ok f rs hf
    exact ⟨some ys, by simp [h1, callMap, hys, bind, Except.bind, pure, Except.pure]⟩

theorem portfolioPoint_ok_of_ready (R : Runtime) (d : JsVal) (hd : pointReady d = true) :
    ∃ p, portfolioPoint R d = .ok p := by
  unfold pointReady at hd
  split at hd
  · next t ht =>
    obtain ⟨seconds, hts⟩ := epochSeconds_ok_of_convertible R t hd
    obtain ⟨v, hv⟩ := getProp_ok_of_ok ht "portfolio_value"
    exact ⟨_, portfolioPoint_of_fields R d t v seconds ht hts hv⟩
  · simp at hd

/-- C6 (amended): when `tradeData` and `orderData` are each absent or an empty array, and
`priceData` and `portfolioValues` are each absent or an array of records that are not `null`
and whose converted values (`time || Date`, `open || Open`, `high || High`, `low || Low`,
`close || Close` of a price record, `time` of a portfolio record) convert to a primitive, the
merged marker list is empty, `setMarkers` is not called, and the handler ends without an
exception with `fitContent` as its last call, in both scripts. -/
theorem no_events_runs_to_fitContent (V : Variant) (R : Runtime) (data : JsVal)
    (bars points : List JsVal)
    (hT : HasRecords data "tradeData" []) (hO : HasRecords data "orderData" [])
    (hB : HasRecords data "priceData" bars) (hP : HasRecords data "portfolioValues" points)
    (hBars : ∀ x ∈ bars, barReady x = true)
    (hPoints : ∀ x ∈ points, pointReady x = true) :
    allMarkers V R data = .ok [] ∧
    ∃ calls, onData V R data = { calls := calls ++ [.fitContent], error := none } ∧
      ∀ ms, ChartCall.setMarkers ms ∉ calls := by
  have hm : allMarkers V R data = .ok [] :=
    allMarkers_of_records V R data [] [] [] [] hT hO rfl rfl
  obtain ⟨p, hp⟩ := block_ok R data "portfolioValues" points (portfolioPoint R) hP
    (fun x hx => portfolioPoint_ok_of_ready R x (hPoints x hx))
  obtain ⟨b, hb⟩ := block_ok R data "priceData" bars (priceBar R) hB
    (fun x hx => (priceBar_of_ready R x (hBars x hx)).elim
      fun _ h => h.elim fun _ h => h.elim fun _ h => h.elim fun _ h => h.elim fun _ h =>
        h.elim fun b hb => ⟨b, hb.2.2.2.2.2.1⟩)
  have hp2 : formattedPortfolioValues R data = .ok p := hp
  have hb2 : formattedPriceData R data = .ok b := hb
  refine ⟨hm,
    (match p with
      | some pts => [ChartCall.portfolioSetData pts]
      | none => []) ++
    (match b with
      | some bs => [ChartCall.candleSetData bs]
      | none => []), ?_, ?_⟩
  · cases p <;> cases b <;> simp [onData, hp2, hb2, hm]
  · intro ms
    cases p <;> cases b <;> simp

/-- C6 (witness): a response with one bar, one portfolio point and an empty `tradeData`. -/
theorem no_events_runs_to_fitContent_witness :
    HasRecords quietResponse "tradeData" [] ∧ HasRecords quietResponse "orderData" [] ∧
    HasRecords quietResponse "priceData" [zeroOpenRecord] ∧
    (∀ x ∈ [zeroOpenRecord], barReady x = true) ∧
    allMarkers .assets ecma quietResponse = .ok [] ∧
    ∃ calls, onData .assets ecma quietResponse =
      { calls := calls ++ [.fitContent], error := none } :=
  have h := no_events_runs_to_fitContent .assets ecma quietResponse [zeroOpenRecord]
    [.obj [("time", .str "2024-01-01T00:00:00Z"), ("portfolio_value", .num (.finite 1000))]]
    (by decide) (by decide) (by decide) (by decide) (by decide) (by decide)
  ⟨by decide, by decide, by decide, by decide, h.1, h.2.imp fun _ hc => hc.1⟩

/-- C6 (counterexample): for the response `nullBarResponse`, in which `tradeData` and
`orderData` are absent and `priceData` is `[null]`, the handler of either script ends with a
`TypeError` before any chart call: it does not reach `fitContent`.  The same happens for
`unprintableBarResponse`, whose one price record is not `null` but has the object
`{"toString": null}` as `open` (`parseFloat` raises the `TypeError`), and for
`unprintablePointResponse`, whose one portfolio record has that object as `time` (`new Date`
raises it). -/
theorem null_bar_aborts_handler :
    getProp nullBarResponse "tradeData" = .ok .undefined ∧
    getProp nullBarResponse "orderData" = .ok .undefined ∧
    onData .assets ecma nullBarResponse = { calls := [], error := some .nullish } ∧
    onData .backtesting ecma nullBarResponse = { calls := [], error := some .nullish } ∧
    getProp unprintableBarResponse "tradeData" = .ok .undefined ∧
    getProp unprintableBarResponse "orderData" = .ok .undefined ∧
    onData .assets ecma unprintableBarResponse =
      { calls := [], error := some .notPrimitive } ∧
    onData .backtesting ecma unprintableBarResponse =
      { calls := [], error := some .notPrimitive } ∧
    onData .assets ecma unprintablePointResponse =
      { calls := [], error := some .notPrimitive } ∧
    onData .backtesting ecma unprintablePointResponse =
      { calls := [], error := some .notPrimitive } := by
  decide!

/-! ## C9: the end-to-end example -/

/-- C9: for the end-to-end input of the specification the handler of either script makes
exactly three chart calls and ends without an exception: `candleSeries.setData` with the one
bar `time 1704067200, open 100, high 105, low 99, close 102`, `candleSeries.setMarkers` with
the one marker at time `1704067200`, position `belowBar`, shape `arrowUp`, color `#4caf50`
and label `BUY 1 @ 100` (in `tooltip` for the assets script, in `text` for the backtesting
script), and `fitContent`; `portfolioSeries.setData` is not called. -/
theorem end_to_end_example :
    onData .assets ecma endToEndInput =
      { calls := [.candleSetData [endToEndBar], .setMarkers [endToEndMarker .assets],
          .fitContent],
        error := none } ∧
    onData .backtesting ecma endToEndInput =
      { calls := [.candleSetData [endToEndBar], .setMarkers [endToEndMarker .backtesting],
          .fitContent],
        error := none } ∧
    (endToEndMarker .assets).label .assets = some "BUY 1 @ 100" ∧
    (endToEndMarker .backtesting).label .backtesting = some "BUY 1 @ 100" := by
  decide!

/-! ## C7, C8: the crosshair handler -/

theorem strictEqNum_true_truthy {n : JsNum} {v : JsVal} (h : strictEqNum n v = true)
    (h0 : v ≠ .num (.finite 0)) : v.truthy = true := by
  cases v with
  | num m =>
    cases m with
    | nan => cases n <;> simp [strictEqNum, JsNum.strictEq] at h
    | infinity b => rfl
    | finite q =>
      have hq : q ≠ 0 := fun hq => h0 (by rw [hq])
      simp [JsVal.truthy, JsNum.truthy, hq]
  | _ => simp [strictEqNum] at h

theorem onCrosshairMove_not_found (ms : List Marker) (L : Layout) (tip : Tooltip)
    (param : CrosshairParam)
    (h : ms.find? (fun m => strictEqNum m.time param.time) = none) :
    (onCrosshairMove (some ms) L tip param).display = "none" := by
  unfold onCrosshairMove
  split
  · rfl
  · split
    · rfl
    · simp only [h]

theorem onCrosshairMove_found (ms : List Marker) (L : Layout) (tip : Tooltip)
    (time : JsVal) (p : Point) (m : Marker) (hT : time.truthy = true)
    (h : ms.find? (fun m => strictEqNum m.time time) = some m) :
    (onCrosshairMove (some ms) L tip { time := time, point := some p }).display = "block" ∧
    (onCrosshairMove (some ms) L tip { time := time, point := some p }).innerHTML =
      m.tooltip.getD "undefined" := by
  simp [onCrosshairMove, hT, h]

/-- C7 (amended): in the crosshair handler of the assets script, for every marker list and
every hovered time other than the number `0`, delivered with a pointer position: if no marker
has a time strictly equal to it the tooltip is hidden (display `none`); if some marker has,
the tooltip is shown (display `block`) with the `tooltip` text of the first such marker in
list order. -/
theorem tooltip_visibility (ms : List Marker) (L : Layout) (tip : Tooltip) (time : JsVal)
    (p : Point) (hTime : time ≠ .num (.finite 0)) :
    ((∀ m ∈ ms, strictEqNum m.time time = false) →
      (onCrosshairMove (some ms) L tip { time := time, point := some p }).display = "none") ∧
    (∀ (pre post : List Marker) (m : Marker) (label : String), ms = pre ++ m :: post →
      (∀ x ∈ pre, strictEqNum x.time time = false) → strictEqNum m.time time = true →
      m.tooltip = some label →
      (onCrosshairMove (some ms) L tip { time := time, point := some p }).display = "block" ∧
      (onCrosshairMove (some ms) L tip { time := time, point := some p }).innerHTML =
        label) := by
  constructor
  · intro hnone
    apply onCrosshairMove_not_found
    rw [List.find?_eq_none]
    intro m hm
    simp [hnone m hm]
  · intro pre post m label hms hpre hm hlabel
    have hfind : ms.find? (fun m => strictEqNum m.time time) = some m := by
      rw [hms, List.find?_append]
      have : pre.find? (fun m => strictEqNum m.time time) = none := by
        rw [List.find?_eq_none]
        intro x hx
        simp [hpre x hx]
      simp [this, List.find?_cons, hm]
    have := onCrosshairMove_found ms L tip time p m (strictEqNum_true_truthy hm hTime) hfind
    simpa [hlabel] using this

theorem tooltip_visibility_witness :
    JsVal.num (.finite 1704067200) ≠ .num (.finite 0) ∧
    (onCrosshairMove
      (some [buyMarkerAt 1704067140 "SELL 2 @ 99", buyMarkerAt 1704067200 "BUY 1 @ 100",
        buyMarkerAt 1704067200 "BUY 3 @ 101"])
      roomyLayout Tooltip.initial
      { time := .num (.finite 1704067200), point := some ⟨300, 100⟩ }).innerHTML =
      "BUY 1 @ 100" :=
  ⟨by decide!,
    ((tooltip_visibility
      [buyMarkerAt 1704067140 "SELL 2 @ 99", buyMarkerAt 1704067200 "BUY 1 @ 100",
        buyMarkerAt 1704067200 "BUY 3 @ 101"]
      roomyLayout Tooltip.initial (.num (.finite 1704067200)) ⟨300, 100⟩ (by decide!)).2
      [buyMarkerAt 1704067140 "SELL 2 @ 99"] [buyMarkerAt 1704067200 "BUY 3 @ 101"]
      (buyMarkerAt 1704067200 "BUY 1 @ 100") "BUY 1 @ 100" rfl
      (by intro x hx; simp only [List.mem_singleton] at hx; subst hx; decide!)
      (by decide!) rfl).2⟩

/-- C7 (counterexample): a buy dated `1970-01-01T00:00:00Z` yields a marker at time `0`; when
the crosshair delivers the time `0` with a pointer position, that marker's time is strictly
equal to the hovered time, yet the handler hides the tooltip, because `!param.time` holds
for `0`. -/
theorem epoch_zero_marker_is_hidden :
    Assets.tradeMarker ecma (eventRecord (.str "1970-01-01T00:00:00Z") (.str "buy")
      (.num (.finite 1)) (.num (.finite 100))) = .ok (buyMarkerAt 0 "BUY 1 @ 100") ∧
    strictEqNum (buyMarkerAt 0 "BUY 1 @ 100").time (.num (.finite 0)) = true ∧
    (onCrosshairMove (some [buyMarkerAt 0 "BUY 1 @ 100"]) roomyLayout
      { display := "block", innerHTML := "", left := none, top := none }
      { time := .num (.finite 0), point := some ⟨300, 100⟩ }).display = "none" := by
  decide!

/-- C8 (the code at the failing input): with a tooltip box of 200 by 60 pixels in a container
of 100 by 40 pixels, pointer at `(50, 20)` over a marker at the hovered time, the handler
shows the tooltip and assigns `left = 0`, `top = 0`: the box overflows the container on the
right and at the bottom, `left + w = 200 > 100` and `top + h = 60 > 40`, against the comment
`Ensure tooltip stays within the chart container` above the clamp.  All numbers involved are
dyadic, so the double computation of the script is exact here. -/
theorem oversized_tooltip_overflows :
    onCrosshairMove (some [buyMarkerAt 1704067200 "BUY 1 @ 100"]) crampedLayout Tooltip.initial
      { time := .num (.finite 1704067200), point := some ⟨50, 20⟩ } =
      { display := "block", innerHTML := "BUY 1 @ 100", left := some 0, top := some 0 } ∧
    ¬ ((0 : ℚ) + crampedLayout.tipWidth ≤ crampedLayout.clientWidth) ∧
    ¬ ((0 : ℚ) + crampedLayout.tipHeight ≤ crampedLayout.clientHeight) := by
  decide!


end RenderChart
